import Mathlib

/-!
Gossip delegate: quorum state dispatch, probation and failure-domain suspicion.

A shallow embedding of `gossip/proto/gossip_delegates.go` and of the `State`
interface of `gossip/proto/state/state.go`.

* Go strings are Lean strings; `strings.TrimSuffix` and `strings.TrimPrefix`
  act on the underlying character lists.
* The node map is an association list from node id to `NodeInfo`; a Go map has
  one entry per key, which is the predicate `NodupKeys`.
* The unbuffered channel `stateEvent` is the list of events sent so far, oldest
  first.
* Time is a natural number of nanoseconds supplied by the caller (`now`).
* Goroutines are explicit: a callback returns the tasks it spawned, and a task
  is a function that is run on whatever delegate state is current when it is
  scheduled.
-/

namespace Gossip

/-! ## Strings -/

/-- Go `strings.TrimSuffix`: `s` without the trailing `suffix` when `s` ends
with it, `s` itself otherwise. -/
def TrimSuffix (s suffix : String) : String :=
  if suffix.data.isSuffixOf s.data then
    String.mk (s.data.take (s.data.length - suffix.data.length))
  else s

/-- Go `strings.TrimPrefix`: `s` without the leading `pre` when `s` starts
with it, `s` itself otherwise. -/
def TrimPrefix (s pre : String) : String :=
  if pre.data.isPrefixOf s.data then String.mk (s.data.drop pre.data.length) else s

/-! ## Types of the `types` package used by the delegate -/

/-- Modelled from the spec: the enumeration `types.NodeStatus` (the `types`
package is not part of the sources); the five values of the data model. -/
inductive NodeStatus where
  | NODE_STATUS_UP
  | NODE_STATUS_DOWN
  | NODE_STATUS_NOT_IN_QUORUM
  | NODE_STATUS_SUSPECT_NOT_IN_QUORUM
  | NODE_STATUS_SUSPECT_DOWN
  deriving DecidableEq, Repr

/-- Modelled from the spec: the enumeration `types.StateEvent` (the `types`
package is not part of the sources). `StateEvent` is an integer type in Go, so
a value outside the seven named constants can be sent; `UNRECOGNIZED` stands
for any such value. -/
inductive StateEvent where
  | SELF_ALIVE
  | NODE_ALIVE
  | SELF_LEAVE
  | NODE_LEAVE
  | UPDATE_CLUSTER_SIZE
  | UPDATE_CLUSTER_DOMAINS_ACTIVE_MAP
  | TIMEOUT
  | UNRECOGNIZED (code : Nat)
  deriving DecidableEq, Repr

/-- Modelled from the spec: the quorum provider kinds returned by
`quorumProvider.Type()` (the `types` package is not part of the sources). -/
inductive QuorumProviderType where
  | QUORUM_PROVIDER_DEFAULT
  | QUORUM_PROVIDER_FAILURE_DOMAINS
  deriving DecidableEq, Repr

/-- Modelled from the spec: the per-node record `types.NodeInfo` (the `types`
package is not part of the sources): id, network address, cluster domain and
current status. -/
structure NodeInfo where
  Id : String
  Addr : String
  ClusterDomain : String
  Status : NodeStatus
  deriving DecidableEq, Repr

/-- Modelled from the spec: `types.NodeInfoMap`, the mapping from node id to
`NodeInfo`, as an association list. -/
abbrev NodeInfoMap := List (String × NodeInfo)

/-- Modelled from the spec: `types.NodeMetaInfo`, the identity, version and
cluster-id record advertised by a node. -/
structure NodeMetaInfo where
  ClusterId : String
  GossipVersion : String
  ClusterDomain : String
  deriving DecidableEq, Repr

/-- The part of `memberlist.Node` the delegate reads. -/
structure Node where
  Name : String
  Addr : String
  Meta : List Nat
  deriving DecidableEq, Repr

/-- A Go map holds one entry per key. -/
def NodupKeys (m : NodeInfoMap) : Prop := (m.map Prod.fst).Nodup

instance (m : NodeInfoMap) : Decidable (NodupKeys m) := by
  unfold NodupKeys; infer_instance

/-! ## The gossip store (`GossipStoreImpl`) -/

/-- Modelled from the spec: the state of `GossipStoreImpl` (gossip_store.go is
not part of the sources): the local node id, the node map, and the gossip
version and cluster id fixed by `InitStore`. -/
structure GossipStoreImpl where
  id : String
  nodeMap : NodeInfoMap
  GossipVersion : String
  ClusterId : String
  deriving DecidableEq, Repr

/-- Modelled from the spec: `GetGossipVersion` of the store. -/
def GossipStoreImpl.GetGossipVersion (s : GossipStoreImpl) : String := s.GossipVersion

/-- Modelled from the spec: `GetClusterId` of the store. -/
def GossipStoreImpl.GetClusterId (s : GossipStoreImpl) : String := s.ClusterId

/-- Modelled from the spec: `GetLocalState() → NodeInfoMap`, a copy of the node
map. -/
def GossipStoreImpl.GetLocalState (s : GossipStoreImpl) : NodeInfoMap := s.nodeMap

/-- Modelled from the spec: `GetLocalNodeInfo(id) → (NodeInfo, error)`; a
lookup miss returns a not-found error. -/
def GossipStoreImpl.GetLocalNodeInfo (s : GossipStoreImpl) (nodeId : String) :
    Except String NodeInfo :=
  match s.nodeMap.lookup nodeId with
  | some info => .ok info
  | none => .error "node not found"

/-- Set the status of every entry of the map stored under `nodeId`. -/
def setStatus (m : NodeInfoMap) (nodeId : String) (status : NodeStatus) : NodeInfoMap :=
  m.map (fun kv => if kv.1 = nodeId then (kv.1, { kv.2 with Status := status }) else kv)

/-- Modelled from the spec: `UpdateNodeStatus(id, status) → error`; a lookup
miss returns a not-found error and changes nothing. -/
def GossipStoreImpl.UpdateNodeStatus (s : GossipStoreImpl) (nodeId : String)
    (status : NodeStatus) : GossipStoreImpl × Option String :=
  match s.nodeMap.lookup nodeId with
  | some _ => ({ s with nodeMap := setStatus s.nodeMap nodeId status }, none)
  | none => (s, some "node not found")

/-- Modelled from the spec: `RemoveNode(id)`, which drops the node from the
local map. -/
def GossipStoreImpl.RemoveNode (s : GossipStoreImpl) (nodeId : String) : GossipStoreImpl :=
  { s with nodeMap := s.nodeMap.filter (fun kv => kv.1 ≠ nodeId) }

/-- Modelled from the spec: `GetSelfStatus()`, the status recorded for the
local node; `none` stands for the zero value read when the local node has no
entry. -/
def GossipStoreImpl.GetSelfStatus (s : GossipStoreImpl) : Option NodeStatus :=
  (s.nodeMap.lookup s.id).map NodeInfo.Status

/-- Modelled from the spec: `UpdateSelfStatus(status)`, which republishes the
status into the local node's own `NodeInfo`. -/
def GossipStoreImpl.UpdateSelfStatus (s : GossipStoreImpl) (status : NodeStatus) :
    GossipStoreImpl :=
  { s with nodeMap := setStatus s.nodeMap s.id status }

/-- Modelled from the spec: `getNodesFromClusterDomain`, the known nodes that
share the given cluster-domain identifier. -/
def GossipStoreImpl.getNodesFromClusterDomain (s : GossipStoreImpl) (clusterDomain : String) :
    NodeInfoMap :=
  s.nodeMap.filter (fun kv => kv.2.ClusterDomain = clusterDomain)

/-- The order in which a Go `range` visits the keys of a map is unspecified:
any function that returns a permutation of the keys. -/
def IsRangeOrder (rangeOrder : NodeInfoMap → List String) : Prop :=
  ∀ m : NodeInfoMap, (rangeOrder m).Perm (m.map Prod.fst)

/-- The range order that visits the keys in the order of the association
list. -/
def listOrder (m : NodeInfoMap) : List String := m.map Prod.fst

/-! ## The suspicion check -/

/-- The loop of `isClusterDomainSuspectDown` over the keys of `nodeList`, in
the order the range visits them. Returns the verdict and the ids that were
pinged, in order. -/
def suspectLoop (ping : String → String → Except String Nat) (s : GossipStoreImpl)
    (nodeId : String) : List String → Bool × List String
  | [] => (true, [])
  | fdNodeId :: rest =>
    if fdNodeId = nodeId then suspectLoop ping s nodeId rest
    else
      match s.GetLocalNodeInfo fdNodeId with
      | .error _ => suspectLoop ping s nodeId rest
      | .ok nodeInfo =>
        match ping fdNodeId nodeInfo.Addr with
        | .error _ =>
          let r := suspectLoop ping s nodeId rest
          (r.1, fdNodeId :: r.2)
        | .ok _ => (false, [fdNodeId])

/-- The function `isClusterDomainSuspectDown`: the verdict, and the ids that
were pinged. -/
def isClusterDomainSuspectDown (ping : String → String → Except String Nat)
    (rangeOrder : NodeInfoMap → List String) (s : GossipStoreImpl) (nodeId : String) :
    Bool × List String :=
  match s.GetLocalNodeInfo nodeId with
  | .error _ => (false, [])
  | .ok nodeInfo =>
    let nodeList := s.getNodesFromClusterDomain nodeInfo.ClusterDomain
    suspectLoop ping s nodeId (rangeOrder nodeList)

/-! ## The probation manager -/

/-- The timeout of the node-suspected-down probation manager,
`suspectNodeDownTimeout = 1 * time.Minute`, in nanoseconds. -/
def suspectNodeDownTimeout : Nat := 60000000000

/-- Modelled from the spec: a probation entry `(ID, payload, expiry deadline)`
(the probation package is not part of the sources). -/
structure ProbationEntry where
  ID : String
  payload : Option String
  deadline : Nat
  deriving DecidableEq, Repr

/-- A call made on the probation manager. -/
inductive ProbationCall where
  | Add (id : String) (payload : Option String) (allowReAdd : Bool)
  | Remove (id : String)
  | Exists (id : String)
  deriving DecidableEq, Repr

/-- Modelled from the spec: the state of the probation manager (the probation
package is not part of the sources): the pending entries, the configured
timeout, and the calls received so far, oldest first. -/
structure Probation where
  probationTimeout : Nat
  entries : List ProbationEntry
  calls : List ProbationCall
  deriving DecidableEq, Repr

/-- An entry with this id is pending. -/
def Probation.holds (p : Probation) (id : String) : Bool :=
  p.entries.any (fun e => e.ID = id)

/-- Modelled from the spec: `Exists(id)`, the membership check. -/
def Probation.Exists (p : Probation) (id : String) : Probation × Bool :=
  ({ p with calls := p.calls ++ [ProbationCall.Exists id] }, p.holds id)

/-- Modelled from the spec: `Add(id, payload, allowReAdd)` registers a
deadline, or re-arms the deadline of a pending entry when re-adding is
allowed; adding a pending id without `allowReAdd` is an error and changes no
entry. -/
def Probation.Add (p : Probation) (now : Nat) (id : String) (payload : Option String)
    (allowReAdd : Bool) : Probation × Option String :=
  let logged := p.calls ++ [ProbationCall.Add id payload allowReAdd]
  let fresh : ProbationEntry := ⟨id, payload, now + p.probationTimeout⟩
  if p.holds id then
    if allowReAdd then
      ({ p with entries := p.entries.filter (fun e => e.ID ≠ id) ++ [fresh], calls := logged },
        none)
    else ({ p with calls := logged }, some "already exists")
  else ({ p with entries := p.entries ++ [fresh], calls := logged }, none)

/-- Modelled from the spec: `Remove(id)` cancels the entry before expiry and
is a no-op when it is absent. -/
def Probation.Remove (p : Probation) (id : String) : Probation × Option String :=
  ({ p with entries := p.entries.filter (fun e => e.ID ≠ id),
            calls := p.calls ++ [ProbationCall.Remove id] }, none)

/-! ## The `State` interface -/

/-- The interface `state.State` over a carrier `σ` of state values: one
transition method per event, each returning the next state and an error, and
`NodeStatus`. -/
structure State (σ : Type) where
  SelfAlive : σ → NodeInfoMap → σ × Option String
  NodeAlive : σ → NodeInfoMap → σ × Option String
  SelfLeave : σ → σ × Option String
  NodeLeave : σ → NodeInfoMap → σ × Option String
  UpdateClusterSize : σ → NodeInfoMap → σ × Option String
  UpdateClusterDomainsActiveMap : σ → NodeInfoMap → σ × Option String
  Timeout : σ → NodeInfoMap → σ × Option String
  String : σ → String
  NodeStatus : σ → NodeStatus

/-- Modelled from the spec: the variants of the quorum state machine (the
implementations of `State` are not part of the sources). -/
inductive QuorumState where
  | NotInQuorum
  | Up
  | SuspectNotInQuorum
  | Down
  deriving DecidableEq, Repr

/-- Modelled from the spec: re-evaluation of quorum from the live node map. -/
def QuorumState.reevaluate (inQuorum : NodeInfoMap → Bool) (s : QuorumState)
    (m : NodeInfoMap) : QuorumState :=
  match s with
  | .NotInQuorum => if inQuorum m then .Up else .NotInQuorum
  | .Up => if inQuorum m then .Up else .SuspectNotInQuorum
  | .SuspectNotInQuorum => if inQuorum m then .Up else .SuspectNotInQuorum
  | .Down => .Down

/-- Modelled from the spec: the quorum state machine of section 4.1 over a
quorum provider `inQuorum`: `NotInQuorum` becomes `Up` when quorum is
satisfied, `Up` becomes `SuspectNotInQuorum` when it is lost and the leaving
state on `SelfLeave`, `SuspectNotInQuorum` returns to `Up` when quorum is
regained and becomes `NotInQuorum` on a `Timeout` out of quorum; every other
event returns the same state. No transition returns an error. -/
def quorumStateMachine (inQuorum : NodeInfoMap → Bool) : State QuorumState where
  SelfAlive := fun s m => (s.reevaluate inQuorum m, none)
  NodeAlive := fun s m => (s.reevaluate inQuorum m, none)
  SelfLeave := fun s => (match s with | .Up => .Down | t => t, none)
  NodeLeave := fun s m =>
    (match s with | .NotInQuorum => .NotInQuorum | t => t.reevaluate inQuorum m, none)
  UpdateClusterSize := fun s m => (s.reevaluate inQuorum m, none)
  UpdateClusterDomainsActiveMap := fun s m => (s.reevaluate inQuorum m, none)
  Timeout := fun s m =>
    (match s with
      | .SuspectNotInQuorum => if inQuorum m then .Up else .NotInQuorum
      | t => t, none)
  String := fun s =>
    match s with
    | .NotInQuorum => "NODE_STATUS_NOT_IN_QUORUM"
    | .Up => "NODE_STATUS_UP"
    | .SuspectNotInQuorum => "NODE_STATUS_SUSPECT_NOT_IN_QUORUM"
    | .Down => "NODE_STATUS_DOWN"
  NodeStatus := fun s =>
    match s with
    | .NotInQuorum => .NODE_STATUS_NOT_IN_QUORUM
    | .Up => .NODE_STATUS_UP
    | .SuspectNotInQuorum => .NODE_STATUS_SUSPECT_NOT_IN_QUORUM
    | .Down => .NODE_STATUS_DOWN


/-! ## The delegate -/

/-- The capabilities the delegate is given from outside: the decoder of a
node's metadata (`convertFromBytes`), the `ping` callback of the gossiper, and
the order in which a `range` visits a node map. -/
structure Env where
  convertFromBytes : List Nat → Except String NodeMetaInfo
  ping : String → String → Except String Nat
  rangeOrder : NodeInfoMap → List String

/-- The struct `GossipDelegate`, over the carrier `σ` of the current state
object. `store` is the embedded `GossipStoreImpl`, `stateEvent` the events
sent on the channel so far, `quorumProvider` the value of
`quorumProvider.Type()`. -/
structure GossipDelegate (σ : Type) where
  store : GossipStoreImpl
  nodeId : String
  lastGossipTs : Nat
  stateEvent : List StateEvent
  currentState : σ
  quorumTimeout : Nat
  timeoutVersion : Nat
  nodeDownProbationManager : Probation
  quorumProvider : QuorumProviderType

variable {σ : Type}

/-- The method `updateGossipTs`. -/
def updateGossipTs (gd : GossipDelegate σ) (now : Nat) : GossipDelegate σ :=
  { gd with lastGossipTs := now }

/-- The method `parseMemberlistNodeName`. -/
def parseMemberlistNodeName (gd : GossipDelegate σ) (nodeName : String) : String :=
  TrimSuffix nodeName gd.store.GetGossipVersion

/-- The method `nodeNameToProbationID`. -/
def nodeNameToProbationID (nodeName : String) : String :=
  "gossip-" ++ nodeName

/-- The method `probationIDToNodeName`. -/
def probationIDToNodeName (probationID : String) : String :=
  TrimPrefix probationID "gossip-"

/-- The method `triggerStateEvent`: send the event on the channel. -/
def triggerStateEvent (gd : GossipDelegate σ) (event : StateEvent) : GossipDelegate σ :=
  { gd with stateEvent := gd.stateEvent ++ [event] }

/-- The method `gossipChecks`: `none` is the nil error. -/
def gossipChecks (env : Env) (gd : GossipDelegate σ) (node : Node) : Option String :=
  let nodeName := parseMemberlistNodeName gd node.Name
  match env.convertFromBytes node.Meta with
  | .error err =>
    some ("gossip: Error in unmarshalling peer's meta data. Error : " ++ err)
  | .ok nodeMeta =>
    if nodeMeta.GossipVersion ≠ gd.store.GetGossipVersion then
      some ("Version mismatch with Node (" ++ nodeName ++ "):(" ++ node.Addr ++
        "). Our version: (" ++ gd.store.GetGossipVersion ++ "). Their version: (" ++
        nodeMeta.GossipVersion ++ ")")
    else if nodeMeta.ClusterId ≠ gd.store.GetClusterId then
      some ("(" ++ gd.nodeId ++ ") ClusterId mismatch with Node (" ++ nodeName ++ "):(" ++
        node.Addr ++ "). Our clusterId: (" ++ gd.store.GetClusterId ++
        "). Their clusterId: (" ++ nodeMeta.ClusterId ++ ")")
    else none

/-- The method `NotifyJoin`. -/
def NotifyJoin (env : Env) (gd : GossipDelegate σ) (now : Nat) (node : Node) :
    GossipDelegate σ :=
  let nodeName := parseMemberlistNodeName gd node.Name
  if nodeName = gd.nodeId then gd
  else
    let gd := updateGossipTs gd now
    match gossipChecks env gd node with
    | some _ => { gd with store := gd.store.RemoveNode nodeName }
    | none => gd

/-- The method `setNodeAsSuspectOffline`. -/
def setNodeAsSuspectOffline (gd : GossipDelegate σ) (now : Nat) (nodeName : String) :
    GossipDelegate σ :=
  match gd.store.UpdateNodeStatus nodeName .NODE_STATUS_SUSPECT_DOWN with
  | (_, some _) => gd
  | (store, none) =>
    let gd := { gd with store := store }
    let gd := triggerStateEvent gd .NODE_LEAVE
    match gd.nodeDownProbationManager.Exists (nodeNameToProbationID nodeName) with
    | (pm, true) => { gd with nodeDownProbationManager := pm }
    | (pm, false) =>
      { gd with nodeDownProbationManager :=
          (pm.Add now (nodeNameToProbationID nodeName) none false).1 }

/-- The method `setNodeOffline`. -/
def setNodeOffline (gd : GossipDelegate σ) (nodeName : String) : GossipDelegate σ :=
  match gd.store.UpdateNodeStatus nodeName .NODE_STATUS_DOWN with
  | (_, some _) => gd
  | (store, none) => triggerStateEvent { gd with store := store } .NODE_LEAVE

/-- The body of the goroutine spawned by `NotifyLeave` for the peer
`nodeName`, run on the delegate state current when it is scheduled. -/
def leaveSuspicionTask (env : Env) (gd : GossipDelegate σ) (now : Nat) (nodeName : String) :
    GossipDelegate σ :=
  let isSuspect := (isClusterDomainSuspectDown env.ping env.rangeOrder gd.store nodeName).1
  if isSuspect then setNodeAsSuspectOffline gd now nodeName
  else setNodeOffline gd nodeName

/-- The method `NotifyLeave`: the delegate when the callback returns, and the
peers for which it spawned the suspicion goroutine. -/
def NotifyLeave (gd : GossipDelegate σ) (now : Nat) (node : Node) :
    GossipDelegate σ × List String :=
  let nodeName := parseMemberlistNodeName gd node.Name
  let r : GossipDelegate σ × List String :=
    if nodeName = gd.nodeId then (triggerStateEvent gd .SELF_LEAVE, [])
    else if gd.quorumProvider = .QUORUM_PROVIDER_FAILURE_DOMAINS then (gd, [nodeName])
    else (setNodeOffline gd nodeName, [])
  (updateGossipTs r.1 now, r.2)

/-- The effect of `NotifyLeave` once the goroutines it spawned have run to
completion (at time `later`). -/
def NotifyLeaveDone (env : Env) (gd : GossipDelegate σ) (now later : Nat) (node : Node) :
    GossipDelegate σ :=
  let r := NotifyLeave gd now node
  r.2.foldl (fun g nodeName => leaveSuspicionTask env g later nodeName) r.1

/-- The method `NotifyAlive`: the delegate afterwards and the returned
error. -/
def NotifyAlive (env : Env) (gd : GossipDelegate σ) (now : Nat) (node : Node) :
    GossipDelegate σ × Option String :=
  let nodeName := parseMemberlistNodeName gd node.Name
  if nodeName = gd.nodeId then (triggerStateEvent gd .SELF_ALIVE, none)
  else
    let gd := updateGossipTs gd now
    match gossipChecks env gd node with
    | some err => ({ gd with store := gd.store.RemoveNode nodeName }, some err)
    | none =>
      match gd.store.GetLocalNodeInfo nodeName with
      | .error _ => (gd, none)
      | .ok diffNode =>
        if diffNode.Status ≠ .NODE_STATUS_UP then
          let gd := { gd with store := (gd.store.UpdateNodeStatus nodeName .NODE_STATUS_UP).1 }
          let gd := triggerStateEvent gd .NODE_ALIVE
          if diffNode.Status = .NODE_STATUS_SUSPECT_DOWN then
            ({ gd with nodeDownProbationManager :=
                (gd.nodeDownProbationManager.Remove (nodeNameToProbationID nodeName)).1 }, none)
          else (gd, none)
        else (gd, none)

/-- The method `probationExpiredOnSuspectedDownNode`, the callback of the
probation manager. -/
def probationExpiredOnSuspectedDownNode (gd : GossipDelegate σ) (now : Nat)
    (probationID : String) (_nodeData : Option String) : GossipDelegate σ × Option String :=
  let nodeName := probationIDToNodeName probationID
  let selfStatus := gd.store.GetSelfStatus
  if selfStatus ≠ some .NODE_STATUS_UP then
    ({ gd with nodeDownProbationManager :=
        (gd.nodeDownProbationManager.Add now probationID none true).1 }, none)
  else
    let gd := { gd with store := (gd.store.UpdateNodeStatus nodeName .NODE_STATUS_DOWN).1 }
    ({ gd with nodeDownProbationManager :=
        (gd.nodeDownProbationManager.Remove probationID).1 }, none)


/-! ## The quorum timer -/

/-- The first critical section of `startQuorumTimer`: increment the `uint64`
counter `timeoutVersion` and capture it as `localVersion`. -/
def startQuorumTimerBegin (gd : GossipDelegate σ) : GossipDelegate σ × Nat :=
  let localVersion := (gd.timeoutVersion + 1) % 2 ^ 64
  ({ gd with timeoutVersion := localVersion }, localVersion)

/-- The second critical section of `startQuorumTimer`, entered when the sleep
is over: send `TIMEOUT` when the captured version is still the current one. -/
def startQuorumTimerExpire (gd : GossipDelegate σ) (localVersion : Nat) : GossipDelegate σ :=
  if localVersion = gd.timeoutVersion then
    { gd with stateEvent := gd.stateEvent ++ [StateEvent.TIMEOUT] }
  else gd

/-- A step of an interleaving of quorum timers: a timer goroutine enters its
first critical section (`start`), or the timer that was the `timer`-th to
start (counting from 0) wakes up and enters its second one (`expire`). -/
inductive TimerStep where
  | start
  | expire (timer : Nat)
  deriving DecidableEq, Repr

/-- The delegate together with the `localVersion` captured by each timer
started so far, in the order they started. -/
structure TimerRun (σ : Type) where
  gd : GossipDelegate σ
  localVersions : List Nat

/-- One step of the interleaving; the two critical sections are atomic because
both run under `timeoutVersionLock`. An `expire` of a timer that has not
started is no step. -/
def timerStep (r : TimerRun σ) : TimerStep → TimerRun σ
  | .start =>
    let b := startQuorumTimerBegin r.gd
    { gd := b.1, localVersions := r.localVersions ++ [b.2] }
  | .expire timer =>
    match r.localVersions.get? timer with
    | some localVersion => { r with gd := startQuorumTimerExpire r.gd localVersion }
    | none => r

/-- Run an interleaving from a delegate on which no timer has started yet. -/
def runTimers (gd : GossipDelegate σ) (steps : List TimerStep) : TimerRun σ :=
  steps.foldl timerStep { gd := gd, localVersions := [] }

/-- The number of timers started by an interleaving. -/
def countStarts (steps : List TimerStep) : Nat :=
  steps.countP (fun st => st = TimerStep.start)

/-- The number of `TIMEOUT` events sent on the channel so far. -/
def timeoutsSent (gd : GossipDelegate σ) : Nat :=
  gd.stateEvent.count StateEvent.TIMEOUT

/-! ## The event-consumption worker -/

/-- One iteration of the loop of `handleStateEvents` on the received `event`:
the delegate afterwards and the number of `startQuorumTimer` goroutines it
spawned. -/
def handleStateEvent (ops : State σ) (gd : GossipDelegate σ) (event : StateEvent) :
    GossipDelegate σ × Nat :=
  let previousStatus := ops.NodeStatus gd.currentState
  let gd : GossipDelegate σ :=
    match event with
    | .SELF_ALIVE =>
      { gd with currentState := (ops.SelfAlive gd.currentState gd.store.GetLocalState).1 }
    | .NODE_ALIVE =>
      { gd with currentState := (ops.NodeAlive gd.currentState gd.store.GetLocalState).1 }
    | .SELF_LEAVE =>
      { gd with currentState := (ops.SelfLeave gd.currentState).1 }
    | .NODE_LEAVE =>
      { gd with currentState := (ops.NodeLeave gd.currentState gd.store.GetLocalState).1 }
    | .UPDATE_CLUSTER_SIZE =>
      { gd with currentState := (ops.UpdateClusterSize gd.currentState gd.store.GetLocalState).1 }
    | .UPDATE_CLUSTER_DOMAINS_ACTIVE_MAP =>
      { gd with currentState :=
          (ops.UpdateClusterDomainsActiveMap gd.currentState gd.store.GetLocalState).1 }
    | .TIMEOUT =>
      let newState := (ops.Timeout gd.currentState gd.store.GetLocalState).1
      { gd with currentState := newState }
    | .UNRECOGNIZED _ => gd
  let newStatus := ops.NodeStatus gd.currentState
  let spawned : Nat :=
    if previousStatus = NodeStatus.NODE_STATUS_UP ∧
        newStatus = NodeStatus.NODE_STATUS_SUSPECT_NOT_IN_QUORUM then 1 else 0
  ({ gd with store := gd.store.UpdateSelfStatus (ops.NodeStatus gd.currentState) }, spawned)

/-- The loop of `handleStateEvents` over the events received from the channel,
in arrival order: the delegate afterwards and the number of timer goroutines
spawned. -/
def handleStateEvents (ops : State σ) (gd : GossipDelegate σ) :
    List StateEvent → GossipDelegate σ × Nat
  | [] => (gd, 0)
  | event :: rest =>
    let r := handleStateEvent ops gd event
    let q := handleStateEvents ops r.1 rest
    (q.1, r.2 + q.2)

/-- The result (state and error) of the transition method that the worker
invokes for an event; an unrecognized event invokes none. -/
def invokedTransition (ops : State σ) (event : StateEvent) (s : σ) (m : NodeInfoMap) :
    σ × Option String :=
  match event with
  | .SELF_ALIVE => ops.SelfAlive s m
  | .NODE_ALIVE => ops.NodeAlive s m
  | .SELF_LEAVE => ops.SelfLeave s
  | .NODE_LEAVE => ops.NodeLeave s m
  | .UPDATE_CLUSTER_SIZE => ops.UpdateClusterSize s m
  | .UPDATE_CLUSTER_DOMAINS_ACTIVE_MAP => ops.UpdateClusterDomainsActiveMap s m
  | .TIMEOUT => ops.Timeout s m
  | .UNRECOGNIZED _ => (s, none)

/-- The specification of the worker as a left fold: each event applies the
matching transition method to the state and the current node map, and the
status of the new state is republished into the entry of the local node
`selfId`. -/
def foldTransitions (ops : State σ) (selfId : String) (s : σ) (m : NodeInfoMap)
    (events : List StateEvent) : σ × NodeInfoMap :=
  events.foldl
    (fun acc event =>
      let next := (invokedTransition ops event acc.1 acc.2).1
      (next, setStatus acc.2 selfId (ops.NodeStatus next)))
    (s, m)

/-- The local node has an entry in the node map, as after `InitStore`. -/
def selfRegistered (gd : GossipDelegate σ) : Prop :=
  (gd.store.nodeMap.lookup gd.store.id).isSome = true

instance (gd : GossipDelegate σ) : Decidable (selfRegistered gd) := by
  unfold selfRegistered; infer_instance

/-! ## Concrete values used to exercise the definitions -/

/-- A three-node map: `n1` and `n2` in `zone1`, `n3` in `zone2`. -/
def sampleMap : NodeInfoMap :=
  [("n1", ⟨"n1", "10.0.0.1", "zone1", .NODE_STATUS_UP⟩),
   ("n2", ⟨"n2", "10.0.0.2", "zone1", .NODE_STATUS_UP⟩),
   ("n3", ⟨"n3", "10.0.0.3", "zone2", .NODE_STATUS_SUSPECT_DOWN⟩)]

/-- A store of the local node `n1` with gossip version `v1`. -/
def sampleStore : GossipStoreImpl := ⟨"n1", sampleMap, "v1", "c1"⟩

/-- A delegate of the local node `n1` in state `Up`. -/
def sampleDelegate (quorumProvider : QuorumProviderType) : GossipDelegate QuorumState :=
  { store := sampleStore, nodeId := "n1", lastGossipTs := 0, stateEvent := [],
    currentState := QuorumState.Up, quorumTimeout := 1000, timeoutVersion := 0,
    nodeDownProbationManager := ⟨suspectNodeDownTimeout, [], []⟩,
    quorumProvider := quorumProvider }

/-- A decoder that accepts every buffer as metadata of cluster `c1` at
version `v1`. -/
def sampleDecode (_ : List Nat) : Except String NodeMetaInfo := .ok ⟨"c1", "v1", "zone1"⟩

/-- A ping that only `n2` answers. -/
def pingOnlyN2 (nodeId _addr : String) : Except String Nat :=
  if nodeId = "n2" then .ok 5 else .error "timeout"

/-- A ping that nobody answers. -/
def pingNobody (_nodeId _addr : String) : Except String Nat := .error "timeout"


/-- A `State` whose every transition returns the state it was given together
with an error. -/
def refusingStateMachine : State QuorumState where
  SelfAlive := fun s _ => (s, some "quorum provider unavailable")
  NodeAlive := fun s _ => (s, some "quorum provider unavailable")
  SelfLeave := fun s => (s, some "quorum provider unavailable")
  NodeLeave := fun s _ => (s, some "quorum provider unavailable")
  UpdateClusterSize := fun s _ => (s, some "quorum provider unavailable")
  UpdateClusterDomainsActiveMap := fun s _ => (s, some "quorum provider unavailable")
  Timeout := fun s _ => (s, some "quorum provider unavailable")
  String := (quorumStateMachine (fun _ => true)).String
  NodeStatus := (quorumStateMachine (fun _ => true)).NodeStatus

/-- A `State` whose every transition returns the state `NotInQuorum` together
with an error: the interface lets a method return any state along with its
error. -/
def erringStateMachine : State QuorumState where
  SelfAlive := fun _ _ => (.NotInQuorum, some "quorum provider unavailable")
  NodeAlive := fun _ _ => (.NotInQuorum, some "quorum provider unavailable")
  SelfLeave := fun _ => (.NotInQuorum, some "quorum provider unavailable")
  NodeLeave := fun _ _ => (.NotInQuorum, some "quorum provider unavailable")
  UpdateClusterSize := fun _ _ => (.NotInQuorum, some "quorum provider unavailable")
  UpdateClusterDomainsActiveMap := fun _ _ => (.NotInQuorum, some "quorum provider unavailable")
  Timeout := fun _ _ => (.NotInQuorum, some "quorum provider unavailable")
  String := (quorumStateMachine (fun _ => true)).String
  NodeStatus := (quorumStateMachine (fun _ => true)).NodeStatus

/-! ## The push-pull exchange -/

/-- The methods of the gossip store that `LocalState` and `MergeRemoteState`
call and whose code is not part of the sources, taken as given:
`updateSelfTs` (at the current time), `GetLocalStateInBytes`, the decoder
`convertFromBytes` of a node map (the value left in the target and the error)
and the merge `Update`. -/
structure StoreOps where
  updateSelfTs : GossipStoreImpl → Nat → GossipStoreImpl
  GetLocalStateInBytes : GossipStoreImpl → Except String (List Nat)
  convertFromBytes : List Nat → NodeInfoMap × Option String
  Update : GossipStoreImpl → NodeInfoMap → GossipStoreImpl

/-- The method `LocalState`: the delegate afterwards and the returned
bytes. -/
def LocalState (ops : StoreOps) (gd : GossipDelegate σ) (now : Nat) (_join : Bool) :
    GossipDelegate σ × List Nat :=
  let gd := { gd with store := ops.updateSelfTs gd.store now }
  let byteLocalState : List Nat :=
    match ops.GetLocalStateInBytes gd.store with
    | .ok bytes => bytes
    | .error _ => []
  (updateGossipTs gd now, byteLocalState)

/-- The method `MergeRemoteState`. -/
def MergeRemoteState (ops : StoreOps) (gd : GossipDelegate σ) (now : Nat) (buf : List Nat)
    (join : Bool) : GossipDelegate σ :=
  if join = true then gd
  else
    let gd := { gd with store := ops.updateSelfTs gd.store now }
    let remoteState := (ops.convertFromBytes buf).1
    let gd := { gd with store := ops.Update gd.store remoteState }
    updateGossipTs gd now

/-- The method `NotifyMerge`: the error of the first peer that fails the
checks. -/
def NotifyMerge (env : Env) (gd : GossipDelegate σ) : List Node → Option String
  | [] => none
  | peer :: rest =>
    match gossipChecks env gd peer with
    | some err => some err
    | none => NotifyMerge env gd rest

/-! ## The cluster-domains service of the SDK -/

/-- Modelled from the spec: the activation state of a cluster domain,
`ACTIVE` or `INACTIVE`. -/
inductive ClusterDomainState where
  | CLUSTER_DOMAIN_STATE_ACTIVE
  | CLUSTER_DOMAIN_STATE_INACTIVE
  deriving DecidableEq, Repr

/-- Modelled from the spec: `ClusterDomainInfo`, a domain name with its
activation state. -/
structure ClusterDomainInfo where
  Name : String
  State : ClusterDomainState
  deriving DecidableEq, Repr

/-- Modelled from the spec: the cluster behind the SDK server (only its mock
is used by the tests in the sources): the known domains, and the
`UpdateDomainState` requests received so far, oldest first. -/
structure Cluster where
  domains : List ClusterDomainInfo
  updateRequests : List (String × ClusterDomainState)
  deriving DecidableEq, Repr

/-- Modelled from the spec: `InspectDomain(name)`, which fails when the name
is unknown. -/
def Cluster.InspectDomain (c : Cluster) (name : String) : Except String ClusterDomainInfo :=
  match c.domains.find? (fun d => d.Name = name) with
  | some info => .ok info
  | none => .error "cluster domain not found"

/-- Modelled from the spec: `UpdateDomainState(name, state)`, which sets the
activation state of the named domain; a request for an unknown name is
recorded and returns an error. -/
def Cluster.UpdateDomainState (c : Cluster) (name : String) (state : ClusterDomainState) :
    Cluster × Option String :=
  let requests := c.updateRequests ++ [(name, state)]
  if c.domains.any (fun d => d.Name = name) then
    ({ domains := c.domains.map (fun d => if d.Name = name then { d with State := state } else d),
       updateRequests := requests }, none)
  else ({ c with updateRequests := requests }, some "cluster domain not found")

/-- The response of `Inspect`: the domain name and whether it is active. -/
structure SdkClusterDomainInspectResponse where
  ClusterDomainName : String
  IsActive : Bool
  deriving DecidableEq, Repr

/-- Modelled from the spec: `InspectClusterDomain(name) → {name, isActive}`,
which fails if the name is unknown (the server code is not part of the
sources, only its tests are). -/
def Inspect (c : Cluster) (name : String) : Except String SdkClusterDomainInspectResponse :=
  match c.InspectDomain name with
  | .error err => .error err
  | .ok info =>
    .ok ⟨name, decide (info.State = ClusterDomainState.CLUSTER_DOMAIN_STATE_ACTIVE)⟩

/-- Modelled from the spec: `ActivateClusterDomain(name)`, which fails with an
input error if the name is empty and otherwise sets the domain's activation
state to active (the server code is not part of the sources, only its tests
are). -/
def Activate (c : Cluster) (name : String) : Cluster × Option String :=
  if name = "" then (c, some "Must supply a cluster domain name")
  else c.UpdateDomainState name .CLUSTER_DOMAIN_STATE_ACTIVE

/-- Modelled from the spec: `DeactivateClusterDomain(name)`, which fails with
an input error if the name is empty and otherwise sets the domain's activation
state to inactive (the server code is not part of the sources, only its tests
are). -/
def Deactivate (c : Cluster) (name : String) : Cluster × Option String :=
  if name = "" then (c, some "Must supply a cluster domain name")
  else c.UpdateDomainState name .CLUSTER_DOMAIN_STATE_INACTIVE

/-- The cluster of the tests: `zone1` active, `zone2` inactive. -/
def sampleCluster : Cluster :=
  ⟨[⟨"zone1", .CLUSTER_DOMAIN_STATE_ACTIVE⟩, ⟨"zone2", .CLUSTER_DOMAIN_STATE_INACTIVE⟩], []⟩

/-- Store methods for exercising the push-pull exchange: the serializer lists
the lengths of the node ids and fails on an empty map, the decoder accepts
only the buffer `[4]`, as the one-node map of the node `n4`, and the merge
appends the remote entries. -/
def sampleStoreOps : StoreOps where
  updateSelfTs := fun s _ => s
  GetLocalStateInBytes := fun s =>
    if s.nodeMap.isEmpty then .error "nothing to serialize"
    else .ok (s.nodeMap.map (fun kv => kv.1.length))
  convertFromBytes := fun buf =>
    if buf = [4] then ([("n4", ⟨"n4", "10.0.0.4", "zone2", .NODE_STATUS_UP⟩)], none)
    else ([], some "bad buffer")
  Update := fun s m => { s with nodeMap := s.nodeMap ++ m }

/-! ## Lemmas on the node map -/

theorem lookup_eq_some_of_mem {m : NodeInfoMap} (h : NodupKeys m) {k : String} {v : NodeInfo}
    (hmem : (k, v) ∈ m) : m.lookup k = some v := by
  induction m with
  | nil => cases hmem
  | cons p rest ih =>
    obtain ⟨k0, v0⟩ := p
    have hnd : k0 ∉ rest.map Prod.fst ∧ (rest.map Prod.fst).Nodup := by
      simpa [NodupKeys] using h
    rcases List.mem_cons.mp hmem with heq | htail
    · cases heq
      simp [List.lookup]
    · have hne : k ≠ k0 := by
        intro hk
        apply hnd.1
        rw [← hk]
        exact List.mem_map_of_mem Prod.fst htail
      have hbeq : (k == k0) = false := by simpa using hne
      simp only [List.lookup, hbeq]
      exact ih hnd.2 htail

theorem mem_of_lookup_eq_some {m : NodeInfoMap} {k : String} {v : NodeInfo}
    (h : m.lookup k = some v) : (k, v) ∈ m := by
  induction m with
  | nil => simp [List.lookup] at h
  | cons p rest ih =>
    obtain ⟨k0, v0⟩ := p
    by_cases hk : k = k0
    · subst hk
      simp [List.lookup] at h
      subst h
      exact List.mem_cons_self _ _
    · have hbeq : (k == k0) = false := by simpa using hk
      simp only [List.lookup, hbeq] at h
      exact List.mem_cons_of_mem _ (ih h)

theorem GetLocalNodeInfo_eq_ok (s : GossipStoreImpl) (k : String) (v : NodeInfo) :
    s.GetLocalNodeInfo k = .ok v ↔ s.nodeMap.lookup k = some v := by
  unfold GossipStoreImpl.GetLocalNodeInfo
  cases h : s.nodeMap.lookup k <;> simp

theorem mem_domain_keys (s : GossipStoreImpl) (h : NodupKeys s.nodeMap) (d k : String) :
    k ∈ (s.getNodesFromClusterDomain d).map Prod.fst ↔
      ∃ v, s.GetLocalNodeInfo k = .ok v ∧ v.ClusterDomain = d := by
  simp only [GossipStoreImpl.getNodesFromClusterDomain, GetLocalNodeInfo_eq_ok, List.mem_map,
    List.mem_filter, decide_eq_true_eq]
  constructor
  · rintro ⟨⟨k0, v⟩, ⟨hmem, hd⟩, rfl⟩
    exact ⟨v, lookup_eq_some_of_mem h hmem, hd⟩
  · rintro ⟨v, hl, hd⟩
    exact ⟨(k, v), ⟨mem_of_lookup_eq_some hl, hd⟩, rfl⟩

/-! ## Lemmas on the suspicion loop -/

theorem suspectLoop_false_iff (ping : String → String → Except String Nat)
    (s : GossipStoreImpl) (nodeId : String) (l : List String) :
    (suspectLoop ping s nodeId l).1 = false ↔
      ∃ k ∈ l, k ≠ nodeId ∧ ∃ v, s.GetLocalNodeInfo k = .ok v ∧
        ∃ latency, ping k v.Addr = .ok latency := by
  induction l with
  | nil => simp [suspectLoop]
  | cons k rest ih =>
    by_cases hk : k = nodeId
    · simp [suspectLoop, hk, ih]
    · cases hl : s.GetLocalNodeInfo k with
      | error e => simp [suspectLoop, hk, hl, ih]
      | ok v =>
        cases hp : ping k v.Addr with
        | error e => simp [suspectLoop, hk, hl, hp, ih]
        | ok t => simp [suspectLoop, hk, hl, hp]

theorem suspectLoop_pinged (ping : String → String → Except String Nat)
    (s : GossipStoreImpl) (nodeId : String) (l : List String) :
    ∀ k ∈ (suspectLoop ping s nodeId l).2, k ∈ l ∧ k ≠ nodeId := by
  induction l with
  | nil => simp [suspectLoop]
  | cons k rest ih =>
    by_cases hk : k = nodeId
    · simp only [suspectLoop, hk, if_true]
      intro x hx
      have := ih x hx
      exact ⟨List.mem_cons_of_mem _ this.1, this.2⟩
    · cases hl : s.GetLocalNodeInfo k with
      | error e =>
        simp only [suspectLoop, hk, hl, if_false]
        intro x hx
        have := ih x hx
        exact ⟨List.mem_cons_of_mem _ this.1, this.2⟩
      | ok v =>
        cases hp : ping k v.Addr with
        | error e =>
          simp only [suspectLoop, hk, hl, hp, if_false]
          intro x hx
          rcases List.mem_cons.mp hx with rfl | hx
          · exact ⟨List.mem_cons_self _ _, hk⟩
          · have := ih x hx
            exact ⟨List.mem_cons_of_mem _ this.1, this.2⟩
        | ok t =>
          simp only [suspectLoop, hk, hl, hp, if_false]
          intro x hx
          rcases List.mem_singleton.mp hx with rfl
          exact ⟨List.mem_cons_self _ _, hk⟩

/-! ## C1: the suspicion check on a known node -/

/-- C1: for a node id present in the node map, `isClusterDomainSuspectDown`
returns false exactly when some other node of the same cluster domain that is
present in the map answers the ping without error; so it returns true when the
ping of every sibling fails, in particular when the domain has no other node;
and the suspected node itself is never pinged. This holds for every order in
which the range visits the domain's nodes. -/
theorem isClusterDomainSuspectDown_known_node (ping : String → String → Except String Nat)
    (rangeOrder : NodeInfoMap → List String) (s : GossipStoreImpl) (nodeId : String)
    (info : NodeInfo) (hkeys : NodupKeys s.nodeMap) (horder : IsRangeOrder rangeOrder)
    (hpresent : s.GetLocalNodeInfo nodeId = .ok info) :
    ((isClusterDomainSuspectDown ping rangeOrder s nodeId).1 = false ↔
      ∃ sibling siblingInfo, sibling ≠ nodeId ∧
        s.GetLocalNodeInfo sibling = .ok siblingInfo ∧
        siblingInfo.ClusterDomain = info.ClusterDomain ∧
        ∃ latency, ping sibling siblingInfo.Addr = .ok latency) ∧
    ((∀ sibling siblingInfo, sibling ≠ nodeId →
        s.GetLocalNodeInfo sibling = .ok siblingInfo →
        siblingInfo.ClusterDomain = info.ClusterDomain →
        ∃ err, ping sibling siblingInfo.Addr = .error err) →
      (isClusterDomainSuspectDown ping rangeOrder s nodeId).1 = true) ∧
    ((∀ sibling siblingInfo, sibling ≠ nodeId →
        s.GetLocalNodeInfo sibling = .ok siblingInfo →
        siblingInfo.ClusterDomain ≠ info.ClusterDomain) →
      (isClusterDomainSuspectDown ping rangeOrder s nodeId).1 = true) ∧
    nodeId ∉ (isClusterDomainSuspectDown ping rangeOrder s nodeId).2 := by
  have hiff : (isClusterDomainSuspectDown ping rangeOrder s nodeId).1 = false ↔
      ∃ sibling siblingInfo, sibling ≠ nodeId ∧
        s.GetLocalNodeInfo sibling = .ok siblingInfo ∧
        siblingInfo.ClusterDomain = info.ClusterDomain ∧
        ∃ latency, ping sibling siblingInfo.Addr = .ok latency := by
    simp only [isClusterDomainSuspectDown, hpresent, suspectLoop_false_iff]
    constructor
    · rintro ⟨k, hk, hne, v, hv, t, ht⟩
      have hk2 : k ∈ (s.getNodesFromClusterDomain info.ClusterDomain).map Prod.fst :=
        (horder _).mem_iff.mp hk
      obtain ⟨w, hw, hd⟩ := (mem_domain_keys s hkeys _ k).mp hk2
      have hvw : v = w := by
        rw [hv] at hw
        exact Except.ok.inj hw
      subst hvw
      exact ⟨k, v, hne, hv, hd, t, ht⟩
    · rintro ⟨k, v, hne, hv, hd, t, ht⟩
      refine ⟨k, ?_, hne, v, hv, t, ht⟩
      exact (horder _).mem_iff.mpr ((mem_domain_keys s hkeys _ k).mpr ⟨v, hv, hd⟩)
  have htrue : ∀ {P : Prop}, (P → ¬ ∃ sibling siblingInfo, sibling ≠ nodeId ∧
        s.GetLocalNodeInfo sibling = .ok siblingInfo ∧
        siblingInfo.ClusterDomain = info.ClusterDomain ∧
        ∃ latency, ping sibling siblingInfo.Addr = .ok latency) → P →
      (isClusterDomainSuspectDown ping rangeOrder s nodeId).1 = true := by
    intro P hP p
    cases hres : (isClusterDomainSuspectDown ping rangeOrder s nodeId).1 with
    | true => rfl
    | false => exact absurd (hiff.mp hres) (hP p)
  refine ⟨hiff, htrue ?_, htrue ?_, ?_⟩
  · rintro hall ⟨k, v, hne, hv, hd, t, ht⟩
    obtain ⟨e, he⟩ := hall k v hne hv hd
    rw [ht] at he
    cases he
  · rintro hall ⟨k, v, hne, hv, hd, _⟩
    exact hall k v hne hv hd
  · intro hmem
    simp only [isClusterDomainSuspectDown, hpresent] at hmem
    exact (suspectLoop_pinged ping s nodeId _ nodeId hmem).2 rfl

/-- C1 at a concrete input: in the sample map the sibling `n2` of `n1` answers
the ping. -/
theorem isClusterDomainSuspectDown_known_node_witness :
    (isClusterDomainSuspectDown pingOnlyN2 listOrder sampleStore "n1").1 = false ∧
    "n1" ∉ (isClusterDomainSuspectDown pingOnlyN2 listOrder sampleStore "n1").2 :=
  have h := isClusterDomainSuspectDown_known_node pingOnlyN2 listOrder sampleStore "n1"
    ⟨"n1", "10.0.0.1", "zone1", .NODE_STATUS_UP⟩ (by decide)
    (fun _ => List.Perm.refl _) rfl
  ⟨h.1.mpr ⟨"n2", ⟨"n2", "10.0.0.2", "zone1", .NODE_STATUS_UP⟩, by decide, rfl, rfl,
    5, rfl⟩, h.2.2.2⟩

/-! ## C2: the quorum timer -/

theorem runTimers_append (gd : GossipDelegate σ) (pre : List TimerStep) (st : TimerStep) :
    runTimers gd (pre ++ [st]) = timerStep (runTimers gd pre) st := by
  simp [runTimers, List.foldl_append]

theorem countStarts_append (pre : List TimerStep) (st : TimerStep) :
    countStarts (pre ++ [st]) = countStarts pre + (if st = TimerStep.start then 1 else 0) := by
  simp [countStarts, List.countP_append, List.countP_cons]

/-- The versions captured by the timers of an interleaving, and the live
version after it. -/
theorem runTimers_versions (gd : GossipDelegate σ) (pre : List TimerStep) :
    (runTimers gd pre).localVersions =
        (List.range (countStarts pre)).map (fun i => (gd.timeoutVersion + i + 1) % 2 ^ 64) ∧
      (runTimers gd pre).gd.timeoutVersion =
        (if countStarts pre = 0 then gd.timeoutVersion
         else (gd.timeoutVersion + countStarts pre) % 2 ^ 64) := by
  induction pre using List.reverseRecOn with
  | nil => simp [runTimers, countStarts]
  | append_singleton pre st ih =>
    rw [runTimers_append, countStarts_append]
    obtain ⟨ih1, ih2⟩ := ih
    cases st with
    | start =>
      simp only [timerStep, startQuorumTimerBegin, ih1, ih2, if_true, List.range_succ,
        List.map_append, List.map_cons, List.map_nil]
      refine ⟨?_, ?_⟩
      · congr 2
        split <;> omega
      · simp only [Nat.add_eq_zero, Nat.succ_ne_zero, and_false, if_false]
        split <;> omega
    | expire timer =>
      have hno : (TimerStep.expire timer = TimerStep.start) = False := by simp
      simp only [timerStep, hno, if_false, Nat.add_zero]
      cases hget : (runTimers gd pre).localVersions.get? timer with
      | none => exact ⟨ih1, ih2⟩
      | some lv =>
        refine ⟨ih1, ?_⟩
        simp only [startQuorumTimerExpire]
        split <;> exact ih2

/-- C2: in every interleaving of timer starts and expirations with fewer than
2^64 starts, a started timer that expires sends `TIMEOUT` exactly when no other
timer has started after it (it was the last to start), and otherwise sends
nothing; so when a later timer has started before it expires, it sends
nothing, and of the timers started before the first of them expires only the
last started can send `TIMEOUT`. -/
theorem quorum_timer_timeout_iff_latest (gd : GossipDelegate σ) (pre : List TimerStep)
    (timer : Nat) (hstarts : countStarts pre < 2 ^ 64) (hstarted : timer < countStarts pre) :
    ((timerStep (runTimers gd pre) (.expire timer)).gd.stateEvent =
        (runTimers gd pre).gd.stateEvent ++ [StateEvent.TIMEOUT] ↔
      countStarts pre = timer + 1) ∧
    ((timerStep (runTimers gd pre) (.expire timer)).gd.stateEvent =
        (runTimers gd pre).gd.stateEvent ↔
      countStarts pre ≠ timer + 1) ∧
    (timeoutsSent (timerStep (runTimers gd pre) (.expire timer)).gd =
        timeoutsSent (runTimers gd pre).gd + (if countStarts pre = timer + 1 then 1 else 0)) ∧
    (∀ later, timer < later → later < countStarts pre →
      (timerStep (runTimers gd pre) (.expire timer)).gd.stateEvent =
        (runTimers gd pre).gd.stateEvent) := by
  obtain ⟨h1, h2⟩ := runTimers_versions gd pre
  have hget : (runTimers gd pre).localVersions.get? timer =
      some ((gd.timeoutVersion + timer + 1) % 2 ^ 64) := by
    rw [h1]
    simp [List.getElem?_map, List.getElem?_range hstarted]
  have hne : countStarts pre ≠ 0 := by omega
  have hcur : (runTimers gd pre).gd.timeoutVersion =
      (gd.timeoutVersion + countStarts pre) % 2 ^ 64 := by
    rw [h2, if_neg hne]
  have hiff : (gd.timeoutVersion + timer + 1) % 2 ^ 64 =
      (gd.timeoutVersion + countStarts pre) % 2 ^ 64 ↔ countStarts pre = timer + 1 := by
    constructor
    · intro h
      omega
    · intro h
      rw [h, Nat.add_assoc]
  by_cases hlast : countStarts pre = timer + 1
  · have heq : (gd.timeoutVersion + timer + 1) % 2 ^ 64 =
        (runTimers gd pre).gd.timeoutVersion := by rw [hcur]; exact hiff.mpr hlast
    have hstep : (timerStep (runTimers gd pre) (.expire timer)).gd.stateEvent =
        (runTimers gd pre).gd.stateEvent ++ [StateEvent.TIMEOUT] := by
      simp only [timerStep, hget, startQuorumTimerExpire, heq, if_true]
    refine ⟨by simp [hstep, hlast], ?_, ?_, ?_⟩
    · simp [hstep, hlast]
    · simp [timeoutsSent, hstep, hlast, List.count_append]
    · intro later h1 h2
      omega
  · have hneq : ¬ (gd.timeoutVersion + timer + 1) % 2 ^ 64 =
        (runTimers gd pre).gd.timeoutVersion := by
      rw [hcur]; exact fun h => hlast (hiff.mp h)
    have hstep : (timerStep (runTimers gd pre) (.expire timer)).gd.stateEvent =
        (runTimers gd pre).gd.stateEvent := by
      simp only [timerStep, hget, startQuorumTimerExpire, hneq, if_false]
    refine ⟨by simp [hstep, hlast], by simp [hstep, hlast], ?_, ?_⟩
    · simp [timeoutsSent, hstep, hlast]
    · intro later _ _
      exact hstep

/-- C2 at a concrete interleaving: two timers start, then the first expires and
sends nothing, then the second expires and sends `TIMEOUT`. -/
theorem quorum_timer_timeout_iff_latest_witness :
    (timerStep (runTimers (sampleDelegate .QUORUM_PROVIDER_DEFAULT) [.start, .start])
        (.expire 0)).gd.stateEvent = [] ∧
    (timerStep (runTimers (sampleDelegate .QUORUM_PROVIDER_DEFAULT)
        [.start, .start, .expire 0]) (.expire 1)).gd.stateEvent = [StateEvent.TIMEOUT] :=
  ⟨((quorum_timer_timeout_iff_latest (sampleDelegate .QUORUM_PROVIDER_DEFAULT)
      [.start, .start] 0 (by decide) (by decide)).2.1.mpr (by decide)).trans rfl,
   ((quorum_timer_timeout_iff_latest (sampleDelegate .QUORUM_PROVIDER_DEFAULT)
      [.start, .start, .expire 0] 1 (by decide) (by decide)).1.mpr (by decide)).trans rfl⟩

/-! ## C3, C4, C5: the event-consumption worker -/

theorem lookup_map_values (g : String → NodeInfo → NodeInfo) (m : NodeInfoMap) (k : String) :
    (m.map (fun kv => (kv.1, g kv.1 kv.2))).lookup k = (m.lookup k).map (g k) := by
  induction m with
  | nil => rfl
  | cons p rest ih =>
    obtain ⟨k0, v0⟩ := p
    by_cases hk : k = k0
    · subst hk
      simp [List.lookup]
    · have hbeq : (k == k0) = false := by simpa using hk
      simp only [List.map_cons, List.lookup, hbeq]
      exact ih

theorem setStatus_eq_map_values (m : NodeInfoMap) (nodeId : String) (status : NodeStatus) :
    setStatus m nodeId status =
      m.map (fun kv => (kv.1,
        (fun k v => if k = nodeId then { v with Status := status } else v) kv.1 kv.2)) := by
  unfold setStatus
  apply List.map_congr_left
  rintro ⟨k, v⟩ _
  by_cases h : k = nodeId <;> simp [h]

theorem lookup_setStatus (m : NodeInfoMap) (nodeId k : String) (status : NodeStatus) :
    (setStatus m nodeId status).lookup k =
      (m.lookup k).map (fun v => if k = nodeId then { v with Status := status } else v) := by
  rw [setStatus_eq_map_values]
  exact lookup_map_values
    (fun k v => if k = nodeId then { v with Status := status } else v) m k

theorem handleStateEvent_currentState (ops : State σ) (gd : GossipDelegate σ)
    (event : StateEvent) :
    (handleStateEvent ops gd event).1.currentState =
      (invokedTransition ops event gd.currentState gd.store.nodeMap).1 := by
  cases event <;> rfl

theorem handleStateEvent_store (ops : State σ) (gd : GossipDelegate σ) (event : StateEvent) :
    (handleStateEvent ops gd event).1.store =
      gd.store.UpdateSelfStatus (ops.NodeStatus (handleStateEvent ops gd event).1.currentState) := by
  cases event <;> rfl

theorem handleStateEvent_spawned (ops : State σ) (gd : GossipDelegate σ) (event : StateEvent) :
    (handleStateEvent ops gd event).2 =
      if ops.NodeStatus gd.currentState = NodeStatus.NODE_STATUS_UP ∧
          ops.NodeStatus (handleStateEvent ops gd event).1.currentState =
            NodeStatus.NODE_STATUS_SUSPECT_NOT_IN_QUORUM then 1 else 0 := by
  cases event <;> rfl

theorem handleStateEvent_published (ops : State σ) (gd : GossipDelegate σ) (event : StateEvent) :
    (handleStateEvent ops gd event).1.store.GetSelfStatus =
      gd.store.GetSelfStatus.map
        (fun _ => ops.NodeStatus (handleStateEvent ops gd event).1.currentState) := by
  rw [handleStateEvent_store]
  simp only [GossipStoreImpl.GetSelfStatus, GossipStoreImpl.UpdateSelfStatus, lookup_setStatus]
  cases gd.store.nodeMap.lookup gd.store.id <;> simp

theorem handleStateEvent_selfRegistered (ops : State σ) (gd : GossipDelegate σ)
    (event : StateEvent) (h : selfRegistered gd) :
    selfRegistered (handleStateEvent ops gd event).1 := by
  unfold selfRegistered at *
  rw [handleStateEvent_store]
  simp only [GossipStoreImpl.UpdateSelfStatus, lookup_setStatus]
  cases hl : gd.store.nodeMap.lookup gd.store.id with
  | none => simp [hl] at h
  | some v => simp

theorem handleStateEvents_append (ops : State σ) (gd : GossipDelegate σ)
    (pre : List StateEvent) (event : StateEvent) :
    (handleStateEvents ops gd (pre ++ [event])).1 =
      (handleStateEvent ops (handleStateEvents ops gd pre).1 event).1 := by
  induction pre generalizing gd with
  | nil => simp [handleStateEvents]
  | cons e rest ih => simp [handleStateEvents, ih]

theorem handleStateEvents_selfRegistered (ops : State σ) (gd : GossipDelegate σ)
    (events : List StateEvent) (h : selfRegistered gd) :
    selfRegistered (handleStateEvents ops gd events).1 := by
  induction events generalizing gd with
  | nil => simpa [handleStateEvents] using h
  | cons e rest ih =>
    simp only [handleStateEvents]
    exact ih _ (handleStateEvent_selfRegistered ops gd e h)

theorem handleStateEvents_fold (ops : State σ) (gd : GossipDelegate σ)
    (events : List StateEvent) :
    ((handleStateEvents ops gd events).1.currentState,
        (handleStateEvents ops gd events).1.store.nodeMap) =
      foldTransitions ops gd.store.id gd.currentState gd.store.nodeMap events ∧
    (handleStateEvents ops gd events).1.store.id = gd.store.id := by
  induction events generalizing gd with
  | nil => simp [handleStateEvents, foldTransitions]
  | cons e rest ih =>
    obtain ⟨ih1, ih2⟩ := ih (handleStateEvent ops gd e).1
    have hid : (handleStateEvent ops gd e).1.store.id = gd.store.id := by
      rw [handleStateEvent_store]; rfl
    have hmap : (handleStateEvent ops gd e).1.store.nodeMap =
        setStatus gd.store.nodeMap gd.store.id
          (ops.NodeStatus (invokedTransition ops e gd.currentState gd.store.nodeMap).1) := by
      rw [handleStateEvent_store, handleStateEvent_currentState]; rfl
    refine ⟨?_, ?_⟩
    · simp only [handleStateEvents]
      rw [ih1, hid, hmap, handleStateEvent_currentState]
      simp [foldTransitions]
    · simp only [handleStateEvents]
      rw [ih2, hid]

/-- C3: for every initial delegate and every finite list of events, the
worker's current state (and the node map) after consuming the list is the left
fold, in arrival order, of the transition method matching each event, with the
status republished after each; an unrecognized event leaves the state
unchanged; and, the local node being registered in the node map, after each
event the status recorded for the local node is `NodeStatus()` of the current
state. -/
theorem handleStateEvents_is_fold_of_transitions (ops : State σ) (gd : GossipDelegate σ)
    (events : List StateEvent) (hself : selfRegistered gd) :
    (handleStateEvents ops gd events).1.currentState =
        (foldTransitions ops gd.store.id gd.currentState gd.store.nodeMap events).1 ∧
    (handleStateEvents ops gd events).1.store.nodeMap =
        (foldTransitions ops gd.store.id gd.currentState gd.store.nodeMap events).2 ∧
    (∀ code, (handleStateEvent ops gd (.UNRECOGNIZED code)).1.currentState = gd.currentState) ∧
    (∀ pre event, pre ++ [event] <+: events →
      (handleStateEvents ops gd (pre ++ [event])).1.store.GetSelfStatus =
        some (ops.NodeStatus (handleStateEvents ops gd (pre ++ [event])).1.currentState)) := by
  have hfold := (handleStateEvents_fold ops gd events).1
  refine ⟨congrArg Prod.fst hfold, congrArg Prod.snd hfold, fun _ => rfl, ?_⟩
  intro pre event _
  rw [handleStateEvents_append, handleStateEvent_published]
  have hreg := handleStateEvents_selfRegistered ops gd pre hself
  unfold selfRegistered at hreg
  unfold GossipStoreImpl.GetSelfStatus
  cases hl : (handleStateEvents ops gd pre).1.store.nodeMap.lookup
      (handleStateEvents ops gd pre).1.store.id with
  | none => simp [hl] at hreg
  | some v => simp

/-- C3 at a concrete input: the delegate of `n1` in state `Up` consumes
`NODE_LEAVE` and `TIMEOUT` with quorum lost. -/
theorem handleStateEvents_is_fold_of_transitions_witness :
    (handleStateEvents (quorumStateMachine (fun _ => false))
        (sampleDelegate .QUORUM_PROVIDER_DEFAULT) [.NODE_LEAVE, .TIMEOUT]).1.currentState =
      QuorumState.NotInQuorum ∧
    (handleStateEvents (quorumStateMachine (fun _ => false))
        (sampleDelegate .QUORUM_PROVIDER_DEFAULT) [.NODE_LEAVE, .TIMEOUT]).1.store.GetSelfStatus =
      some NodeStatus.NODE_STATUS_NOT_IN_QUORUM :=
  have h := handleStateEvents_is_fold_of_transitions (quorumStateMachine (fun _ => false))
    (sampleDelegate .QUORUM_PROVIDER_DEFAULT) [.NODE_LEAVE, .TIMEOUT] (by decide)
  ⟨h.1.trans rfl, (h.2.2.2 [.NODE_LEAVE] .TIMEOUT (List.prefix_refl _)).trans rfl⟩

/-- C4: processing one event spawns a quorum timer exactly when the node status
of the current state is `UP` before the event and `SUSPECT_NOT_IN_QUORUM`
after it; at most one timer is spawned per event, and none when the status
before is not `UP` (so none when it stays `SUSPECT_NOT_IN_QUORUM`) or the
status after is not `SUSPECT_NOT_IN_QUORUM`. -/
theorem handleStateEvent_starts_timer_iff (ops : State σ) (gd : GossipDelegate σ)
    (event : StateEvent) :
    ((handleStateEvent ops gd event).2 = 1 ↔
      (ops.NodeStatus gd.currentState = NodeStatus.NODE_STATUS_UP ∧
        ops.NodeStatus (handleStateEvent ops gd event).1.currentState =
          NodeStatus.NODE_STATUS_SUSPECT_NOT_IN_QUORUM)) ∧
    (handleStateEvent ops gd event).2 ≤ 1 ∧
    (ops.NodeStatus gd.currentState ≠ NodeStatus.NODE_STATUS_UP →
      (handleStateEvent ops gd event).2 = 0) ∧
    (ops.NodeStatus (handleStateEvent ops gd event).1.currentState ≠
        NodeStatus.NODE_STATUS_SUSPECT_NOT_IN_QUORUM →
      (handleStateEvent ops gd event).2 = 0) := by
  rw [handleStateEvent_spawned]
  refine ⟨?_, ?_, ?_, ?_⟩
  · split <;> simp_all
  · split <;> simp
  · intro h; simp [h]
  · intro h; simp [h]

/-- C5, the claim as stated fails: the transition method invoked for
`NODE_LEAVE` returns an error together with another state, and the worker, which
discards the error, installs that state: the current state goes from `Up` to
`NotInQuorum` and the published status of the local node from `UP` to
`NOT_IN_QUORUM`. -/
theorem worker_installs_state_returned_with_error :
    (invokedTransition erringStateMachine .NODE_LEAVE
        (sampleDelegate .QUORUM_PROVIDER_DEFAULT).currentState
        (sampleDelegate .QUORUM_PROVIDER_DEFAULT).store.GetLocalState).2 ≠ none ∧
    (sampleDelegate .QUORUM_PROVIDER_DEFAULT).currentState = QuorumState.Up ∧
    (handleStateEvent erringStateMachine (sampleDelegate .QUORUM_PROVIDER_DEFAULT)
        .NODE_LEAVE).1.currentState = QuorumState.NotInQuorum ∧
    (sampleDelegate .QUORUM_PROVIDER_DEFAULT).store.GetSelfStatus =
      some NodeStatus.NODE_STATUS_UP ∧
    (handleStateEvent erringStateMachine (sampleDelegate .QUORUM_PROVIDER_DEFAULT)
        .NODE_LEAVE).1.store.GetSelfStatus = some NodeStatus.NODE_STATUS_NOT_IN_QUORUM := by
  decide

/-- C5, amended: for every event and every current state, the worker discards
the error of the transition method it invokes and installs the state the
method returns; so the state after the event is the state before it exactly
when the method returned the state it was given, and when the method returns
an error together with the state it was given, the worker's current state is
the state it had before the event and a published status that agreed with
that state is unchanged. -/
theorem handleStateEvent_installs_returned_state (ops : State σ) (gd : GossipDelegate σ)
    (event : StateEvent) :
    (handleStateEvent ops gd event).1.currentState =
      (invokedTransition ops event gd.currentState gd.store.GetLocalState).1 ∧
    ((handleStateEvent ops gd event).1.currentState = gd.currentState ↔
      (invokedTransition ops event gd.currentState gd.store.GetLocalState).1 =
        gd.currentState) ∧
    ((invokedTransition ops event gd.currentState gd.store.GetLocalState).2 ≠ none →
      (invokedTransition ops event gd.currentState gd.store.GetLocalState).1 =
        gd.currentState →
      (handleStateEvent ops gd event).1.currentState = gd.currentState ∧
      (gd.store.GetSelfStatus = some (ops.NodeStatus gd.currentState) →
        (handleStateEvent ops gd event).1.store.GetSelfStatus = gd.store.GetSelfStatus)) := by
  have hstate : (handleStateEvent ops gd event).1.currentState =
      (invokedTransition ops event gd.currentState gd.store.GetLocalState).1 :=
    handleStateEvent_currentState ops gd event
  refine ⟨hstate, by rw [hstate], ?_⟩
  intro _ hsame
  have hkept : (handleStateEvent ops gd event).1.currentState = gd.currentState := by
    rw [hstate]
    exact hsame
  refine ⟨hkept, ?_⟩
  intro hpub
  rw [handleStateEvent_published, hkept, hpub]
  rfl

/-- C5 amended, at a concrete input: a state machine that refuses `NODE_LEAVE`
with an error and the state it was given leaves the delegate of `n1` in state
`Up`. -/
theorem handleStateEvent_installs_returned_state_witness :
    (handleStateEvent refusingStateMachine (sampleDelegate .QUORUM_PROVIDER_DEFAULT)
        .NODE_LEAVE).1.currentState = QuorumState.Up ∧
    (handleStateEvent refusingStateMachine (sampleDelegate .QUORUM_PROVIDER_DEFAULT)
        .NODE_LEAVE).1.store.GetSelfStatus = some NodeStatus.NODE_STATUS_UP :=
  have h := (handleStateEvent_installs_returned_state refusingStateMachine
    (sampleDelegate .QUORUM_PROVIDER_DEFAULT) .NODE_LEAVE).2.2 (by decide) rfl
  ⟨h.1, (h.2 rfl).trans rfl⟩

/-! ## Lemmas on the store and the probation manager -/

theorem GetLocalNodeInfo_cases (s : GossipStoreImpl) (k : String) :
    (∃ v, s.GetLocalNodeInfo k = .ok v ∧ s.nodeMap.lookup k = some v) ∨
      (∃ e, s.GetLocalNodeInfo k = .error e ∧ s.nodeMap.lookup k = none) := by
  unfold GossipStoreImpl.GetLocalNodeInfo
  cases h : s.nodeMap.lookup k with
  | none => exact Or.inr ⟨_, rfl, rfl⟩
  | some v => exact Or.inl ⟨v, rfl, rfl⟩

theorem UpdateNodeStatus_of_present (s : GossipStoreImpl) (k : String) (status : NodeStatus)
    (v : NodeInfo) (h : s.GetLocalNodeInfo k = .ok v) :
    s.UpdateNodeStatus k status = ({ s with nodeMap := setStatus s.nodeMap k status }, none) := by
  have hl := (GetLocalNodeInfo_eq_ok s k v).mp h
  simp [GossipStoreImpl.UpdateNodeStatus, hl]

theorem UpdateNodeStatus_of_absent (s : GossipStoreImpl) (k : String) (status : NodeStatus)
    (h : s.nodeMap.lookup k = none) :
    s.UpdateNodeStatus k status = (s, some "node not found") := by
  simp [GossipStoreImpl.UpdateNodeStatus, h]

theorem GetLocalNodeInfo_setStatus_self (s : GossipStoreImpl) (k : String) (status : NodeStatus)
    (v : NodeInfo) (h : s.GetLocalNodeInfo k = .ok v) :
    GossipStoreImpl.GetLocalNodeInfo { s with nodeMap := setStatus s.nodeMap k status } k =
      .ok { v with Status := status } := by
  have hl := (GetLocalNodeInfo_eq_ok s k v).mp h
  rw [GetLocalNodeInfo_eq_ok]
  simp [lookup_setStatus, hl]

theorem GetLocalNodeInfo_setStatus_other (s : GossipStoreImpl) (k other : String)
    (status : NodeStatus) (hne : other ≠ k) :
    GossipStoreImpl.GetLocalNodeInfo { s with nodeMap := setStatus s.nodeMap k status } other =
      s.GetLocalNodeInfo other := by
  unfold GossipStoreImpl.GetLocalNodeInfo
  simp only [lookup_setStatus, hne, if_false]
  cases s.nodeMap.lookup other <;> rfl

theorem holds_Remove (p : Probation) (id : String) : (p.Remove id).1.holds id = false := by
  simp [Probation.Remove, Probation.holds]

theorem holds_Add_fresh (p : Probation) (now : Nat) (id : String) (payload : Option String)
    (allowReAdd : Bool) (h : p.holds id = false) :
    p.Add now id payload allowReAdd =
      ({ p with entries := p.entries ++ [⟨id, payload, now + p.probationTimeout⟩],
                calls := p.calls ++ [ProbationCall.Add id payload allowReAdd] }, none) ∧
    (p.Add now id payload allowReAdd).1.holds id = true := by
  have hadd : p.Add now id payload allowReAdd =
      ({ p with entries := p.entries ++ [⟨id, payload, now + p.probationTimeout⟩],
                calls := p.calls ++ [ProbationCall.Add id payload allowReAdd] }, none) := by
    simp only [Probation.Add, h, Bool.false_eq_true, if_false]
  refine ⟨hadd, ?_⟩
  rw [hadd]
  simp [Probation.holds]

theorem holds_Add_again (p : Probation) (now : Nat) (id : String) (payload : Option String) :
    (p.Add now id payload true).1.holds id = true ∧
    (p.Add now id payload true).1.calls = p.calls ++ [ProbationCall.Add id payload true] ∧
    ⟨id, payload, now + p.probationTimeout⟩ ∈ (p.Add now id payload true).1.entries ∧
    (p.Add now id payload true).2 = none := by
  cases h : p.holds id with
  | true =>
    have hadd : p.Add now id payload true =
        ({ p with entries := p.entries.filter (fun e => e.ID ≠ id) ++
                    [⟨id, payload, now + p.probationTimeout⟩],
                  calls := p.calls ++ [ProbationCall.Add id payload true] }, none) := by
      simp only [Probation.Add, h, if_true]
    rw [hadd]
    simp [Probation.holds]
  | false =>
    rw [(holds_Add_fresh p now id payload true h).1]
    simp [Probation.holds]

/-! ## C6, C7: a peer observed alive -/

theorem NotifyAlive_passing_cases (env : Env) (gd : GossipDelegate σ) (now : Nat) (node : Node)
    (hpeer : parseMemberlistNodeName gd node.Name ≠ gd.nodeId)
    (hcheck : gossipChecks env gd node = none) :
    NotifyAlive env gd now node =
      match gd.store.GetLocalNodeInfo (parseMemberlistNodeName gd node.Name) with
      | .error _ => (updateGossipTs gd now, none)
      | .ok diffNode =>
        if diffNode.Status = NodeStatus.NODE_STATUS_UP then (updateGossipTs gd now, none)
        else if diffNode.Status = NodeStatus.NODE_STATUS_SUSPECT_DOWN then
          ({ updateGossipTs gd now with
              store := { gd.store with nodeMap := (setStatus gd.store.nodeMap
                (parseMemberlistNodeName gd node.Name) NodeStatus.NODE_STATUS_UP) },
              stateEvent := gd.stateEvent ++ [StateEvent.NODE_ALIVE],
              nodeDownProbationManager := (gd.nodeDownProbationManager.Remove
                (nodeNameToProbationID (parseMemberlistNodeName gd node.Name))).1 }, none)
        else
          ({ updateGossipTs gd now with
              store := { gd.store with nodeMap := (setStatus gd.store.nodeMap
                (parseMemberlistNodeName gd node.Name) NodeStatus.NODE_STATUS_UP) },
              stateEvent := gd.stateEvent ++ [StateEvent.NODE_ALIVE] }, none) := by
  have hcheck2 : gossipChecks env (updateGossipTs gd now) node = none := hcheck
  have hname : parseMemberlistNodeName (updateGossipTs gd now) node.Name =
      parseMemberlistNodeName gd node.Name := rfl
  unfold NotifyAlive
  simp only [hpeer, if_false, hcheck2]
  have hstore : (updateGossipTs gd now).store = gd.store := rfl
  rw [hstore]
  rcases GetLocalNodeInfo_cases gd.store (parseMemberlistNodeName gd node.Name) with
    ⟨v, hv, _⟩ | ⟨e, he, _⟩
  · simp only [hv]
    by_cases hup : v.Status = NodeStatus.NODE_STATUS_UP
    · simp [hup]
    · rw [UpdateNodeStatus_of_present gd.store _ _ v hv]
      by_cases hs : v.Status = NodeStatus.NODE_STATUS_SUSPECT_DOWN
      · simp [hup, hs, triggerStateEvent, updateGossipTs]
      · simp [hup, hs, triggerStateEvent, updateGossipTs]
  · simp only [he]

theorem NotifyAlive_unknown (env : Env) (gd : GossipDelegate σ) (now : Nat) (node : Node)
    (hpeer : parseMemberlistNodeName gd node.Name ≠ gd.nodeId)
    (hcheck : gossipChecks env gd node = none) (e : String)
    (he : gd.store.GetLocalNodeInfo (parseMemberlistNodeName gd node.Name) = .error e) :
    NotifyAlive env gd now node = (updateGossipTs gd now, none) := by
  rw [NotifyAlive_passing_cases env gd now node hpeer hcheck, he]

theorem NotifyAlive_already_up (env : Env) (gd : GossipDelegate σ) (now : Nat) (node : Node)
    (hpeer : parseMemberlistNodeName gd node.Name ≠ gd.nodeId)
    (hcheck : gossipChecks env gd node = none) (v : NodeInfo)
    (hv : gd.store.GetLocalNodeInfo (parseMemberlistNodeName gd node.Name) = .ok v)
    (hup : v.Status = NodeStatus.NODE_STATUS_UP) :
    NotifyAlive env gd now node = (updateGossipTs gd now, none) := by
  rw [NotifyAlive_passing_cases env gd now node hpeer hcheck, hv]
  dsimp only
  rw [if_pos hup]

theorem NotifyAlive_suspect_down (env : Env) (gd : GossipDelegate σ) (now : Nat) (node : Node)
    (hpeer : parseMemberlistNodeName gd node.Name ≠ gd.nodeId)
    (hcheck : gossipChecks env gd node = none) (v : NodeInfo)
    (hv : gd.store.GetLocalNodeInfo (parseMemberlistNodeName gd node.Name) = .ok v)
    (hs : v.Status = NodeStatus.NODE_STATUS_SUSPECT_DOWN) :
    NotifyAlive env gd now node =
      ({ updateGossipTs gd now with
          store := { gd.store with nodeMap := (setStatus gd.store.nodeMap
            (parseMemberlistNodeName gd node.Name) NodeStatus.NODE_STATUS_UP) },
          stateEvent := gd.stateEvent ++ [StateEvent.NODE_ALIVE],
          nodeDownProbationManager := (gd.nodeDownProbationManager.Remove
            (nodeNameToProbationID (parseMemberlistNodeName gd node.Name))).1 }, none) := by
  rw [NotifyAlive_passing_cases env gd now node hpeer hcheck, hv]
  have hup : ¬ v.Status = NodeStatus.NODE_STATUS_UP := by rw [hs]; decide
  dsimp only
  rw [if_neg hup, if_pos hs]

theorem NotifyAlive_other_status (env : Env) (gd : GossipDelegate σ) (now : Nat) (node : Node)
    (hpeer : parseMemberlistNodeName gd node.Name ≠ gd.nodeId)
    (hcheck : gossipChecks env gd node = none) (v : NodeInfo)
    (hv : gd.store.GetLocalNodeInfo (parseMemberlistNodeName gd node.Name) = .ok v)
    (hup : v.Status ≠ NodeStatus.NODE_STATUS_UP)
    (hs : v.Status ≠ NodeStatus.NODE_STATUS_SUSPECT_DOWN) :
    NotifyAlive env gd now node =
      ({ updateGossipTs gd now with
          store := { gd.store with nodeMap := (setStatus gd.store.nodeMap
            (parseMemberlistNodeName gd node.Name) NodeStatus.NODE_STATUS_UP) },
          stateEvent := gd.stateEvent ++ [StateEvent.NODE_ALIVE] }, none) := by
  rw [NotifyAlive_passing_cases env gd now node hpeer hcheck, hv]
  dsimp only
  rw [if_neg hup, if_neg hs]

/-- C6: for a peer (name different from self) that passes the version and
cluster-id check, `NotifyAlive` returns nil; if the peer is in the node map
with a status other than `UP`, its status becomes `UP` (no other entry
changes) and exactly one `NODE_ALIVE` is sent; if its status is already `UP`
or it is not in the node map, the store is unchanged (no status changes, no
node is added) and no event is sent. -/
theorem NotifyAlive_compatible_peer (env : Env) (gd : GossipDelegate σ) (now : Nat)
    (node : Node) (hpeer : parseMemberlistNodeName gd node.Name ≠ gd.nodeId)
    (hcheck : gossipChecks env gd node = none) :
    (NotifyAlive env gd now node).2 = none ∧
    (∀ info, gd.store.GetLocalNodeInfo (parseMemberlistNodeName gd node.Name) = .ok info →
      info.Status ≠ NodeStatus.NODE_STATUS_UP →
      (NotifyAlive env gd now node).1.store.GetLocalNodeInfo
          (parseMemberlistNodeName gd node.Name) =
        .ok { info with Status := NodeStatus.NODE_STATUS_UP } ∧
      (∀ other, other ≠ parseMemberlistNodeName gd node.Name →
        (NotifyAlive env gd now node).1.store.GetLocalNodeInfo other =
          gd.store.GetLocalNodeInfo other) ∧
      (NotifyAlive env gd now node).1.stateEvent = gd.stateEvent ++ [StateEvent.NODE_ALIVE]) ∧
    ((∀ info, gd.store.GetLocalNodeInfo (parseMemberlistNodeName gd node.Name) = .ok info →
        info.Status = NodeStatus.NODE_STATUS_UP) →
      (NotifyAlive env gd now node).1.store = gd.store ∧
      (NotifyAlive env gd now node).1.stateEvent = gd.stateEvent) := by
  rcases GetLocalNodeInfo_cases gd.store (parseMemberlistNodeName gd node.Name) with
    ⟨v, hv, _⟩ | ⟨e, he, _⟩
  · by_cases hup : v.Status = NodeStatus.NODE_STATUS_UP
    · rw [NotifyAlive_already_up env gd now node hpeer hcheck v hv hup]
      refine ⟨rfl, ?_, fun _ => ⟨rfl, rfl⟩⟩
      intro info hinfo hne
      rw [hv] at hinfo
      cases hinfo
      exact absurd hup hne
    · by_cases hs : v.Status = NodeStatus.NODE_STATUS_SUSPECT_DOWN
      · rw [NotifyAlive_suspect_down env gd now node hpeer hcheck v hv hs]
        refine ⟨rfl, ?_, fun hall => absurd (hall v hv) hup⟩
        intro info hinfo _
        rw [hv] at hinfo
        cases hinfo
        exact ⟨GetLocalNodeInfo_setStatus_self gd.store _ _ v hv,
          fun other hne => GetLocalNodeInfo_setStatus_other gd.store _ other _ hne, rfl⟩
      · rw [NotifyAlive_other_status env gd now node hpeer hcheck v hv hup hs]
        refine ⟨rfl, ?_, fun hall => absurd (hall v hv) hup⟩
        intro info hinfo _
        rw [hv] at hinfo
        cases hinfo
        exact ⟨GetLocalNodeInfo_setStatus_self gd.store _ _ v hv,
          fun other hne => GetLocalNodeInfo_setStatus_other gd.store _ other _ hne, rfl⟩
  · rw [NotifyAlive_unknown env gd now node hpeer hcheck e he]
    refine ⟨rfl, ?_, fun _ => ⟨rfl, rfl⟩⟩
    intro info hinfo
    rw [he] at hinfo
    cases hinfo

/-- C6 at a concrete input: the peer `n3`, recorded `SUSPECT_DOWN`, reports
alive. -/
theorem NotifyAlive_compatible_peer_witness :
    (NotifyAlive ⟨sampleDecode, pingNobody, listOrder⟩
        (sampleDelegate .QUORUM_PROVIDER_DEFAULT) 7 ⟨"n3v1", "10.0.0.3", []⟩).2 = none ∧
    (NotifyAlive ⟨sampleDecode, pingNobody, listOrder⟩
        (sampleDelegate .QUORUM_PROVIDER_DEFAULT) 7 ⟨"n3v1", "10.0.0.3", []⟩).1.stateEvent =
      [StateEvent.NODE_ALIVE] :=
  have h := NotifyAlive_compatible_peer ⟨sampleDecode, pingNobody, listOrder⟩
    (sampleDelegate .QUORUM_PROVIDER_DEFAULT) 7 ⟨"n3v1", "10.0.0.3", []⟩ (by decide) (by decide)
  ⟨h.1, (h.2.1 ⟨"n3", "10.0.0.3", "zone2", .NODE_STATUS_SUSPECT_DOWN⟩ rfl (by decide)).2.2⟩

theorem NotifyAlive_self (env : Env) (gd : GossipDelegate σ) (now : Nat) (node : Node)
    (hself : parseMemberlistNodeName gd node.Name = gd.nodeId) :
    NotifyAlive env gd now node = (triggerStateEvent gd .SELF_ALIVE, none) := by
  unfold NotifyAlive
  simp only [hself, if_true]

theorem NotifyAlive_incompatible (env : Env) (gd : GossipDelegate σ) (now : Nat) (node : Node)
    (hpeer : parseMemberlistNodeName gd node.Name ≠ gd.nodeId) (err : String)
    (hcheck : gossipChecks env gd node = some err) :
    NotifyAlive env gd now node =
      ({ updateGossipTs gd now with
          store := gd.store.RemoveNode (parseMemberlistNodeName gd node.Name) }, some err) := by
  have hcheck2 : gossipChecks env (updateGossipTs gd now) node = some err := hcheck
  unfold NotifyAlive
  simp only [hpeer, if_false, hcheck2]
  rfl

theorem setNodeAsSuspectOffline_present (gd : GossipDelegate σ) (now : Nat) (nodeName : String)
    (v : NodeInfo) (hv : gd.store.GetLocalNodeInfo nodeName = .ok v) :
    setNodeAsSuspectOffline gd now nodeName =
      { gd with
        store := { gd.store with nodeMap :=
          (setStatus gd.store.nodeMap nodeName NodeStatus.NODE_STATUS_SUSPECT_DOWN) },
        stateEvent := gd.stateEvent ++ [StateEvent.NODE_LEAVE],
        nodeDownProbationManager :=
          if gd.nodeDownProbationManager.holds (nodeNameToProbationID nodeName) = true then
            (gd.nodeDownProbationManager.Exists (nodeNameToProbationID nodeName)).1
          else
            ((gd.nodeDownProbationManager.Exists (nodeNameToProbationID nodeName)).1.Add now
              (nodeNameToProbationID nodeName) none false).1 } := by
  unfold setNodeAsSuspectOffline
  rw [UpdateNodeStatus_of_present gd.store _ _ v hv]
  cases h : gd.nodeDownProbationManager.holds (nodeNameToProbationID nodeName) <;>
    simp [Probation.Exists, triggerStateEvent, h]

theorem setNodeAsSuspectOffline_absent (gd : GossipDelegate σ) (now : Nat) (nodeName : String)
    (h : gd.store.nodeMap.lookup nodeName = none) :
    setNodeAsSuspectOffline gd now nodeName = gd := by
  unfold setNodeAsSuspectOffline
  rw [UpdateNodeStatus_of_absent gd.store _ _ h]

theorem setNodeOffline_present (gd : GossipDelegate σ) (nodeName : String)
    (v : NodeInfo) (hv : gd.store.GetLocalNodeInfo nodeName = .ok v) :
    setNodeOffline gd nodeName =
      { gd with
        store := { gd.store with nodeMap :=
          (setStatus gd.store.nodeMap nodeName NodeStatus.NODE_STATUS_DOWN) },
        stateEvent := gd.stateEvent ++ [StateEvent.NODE_LEAVE] } := by
  unfold setNodeOffline
  rw [UpdateNodeStatus_of_present gd.store _ _ v hv]
  rfl

theorem setNodeOffline_absent (gd : GossipDelegate σ) (nodeName : String)
    (h : gd.store.nodeMap.lookup nodeName = none) :
    setNodeOffline gd nodeName = gd := by
  unfold setNodeOffline
  rw [UpdateNodeStatus_of_absent gd.store _ _ h]

/-- C7: a compatible peer recorded `SUSPECT_DOWN` is `UP` after `NotifyAlive`
and the probation manager holds no entry for it: the one call made is `Remove`
with the probation id of the peer; that id is the one under which
`setNodeAsSuspectOffline` registers the peer. For self, for a peer that fails
the check, and for a peer whose recorded status is not `SUSPECT_DOWN`,
`NotifyAlive` makes no call on the probation manager. -/
theorem NotifyAlive_cancels_probation (env : Env) (gd : GossipDelegate σ) (now : Nat)
    (node : Node) :
    (parseMemberlistNodeName gd node.Name ≠ gd.nodeId → gossipChecks env gd node = none →
      ∀ info, gd.store.GetLocalNodeInfo (parseMemberlistNodeName gd node.Name) = .ok info →
      info.Status = NodeStatus.NODE_STATUS_SUSPECT_DOWN →
        (NotifyAlive env gd now node).1.store.GetLocalNodeInfo
            (parseMemberlistNodeName gd node.Name) =
          .ok { info with Status := NodeStatus.NODE_STATUS_UP } ∧
        (NotifyAlive env gd now node).1.nodeDownProbationManager.holds
            (nodeNameToProbationID (parseMemberlistNodeName gd node.Name)) = false ∧
        (NotifyAlive env gd now node).1.nodeDownProbationManager.calls =
          gd.nodeDownProbationManager.calls ++
            [ProbationCall.Remove (nodeNameToProbationID (parseMemberlistNodeName gd node.Name))]) ∧
    ((parseMemberlistNodeName gd node.Name = gd.nodeId ∨ gossipChecks env gd node ≠ none ∨
        ∀ info, gd.store.GetLocalNodeInfo (parseMemberlistNodeName gd node.Name) = .ok info →
          info.Status ≠ NodeStatus.NODE_STATUS_SUSPECT_DOWN) →
      (NotifyAlive env gd now node).1.nodeDownProbationManager = gd.nodeDownProbationManager) ∧
    (∀ earlier nodeName info, gd.store.GetLocalNodeInfo nodeName = .ok info →
      (setNodeAsSuspectOffline gd earlier nodeName).nodeDownProbationManager.holds
          (nodeNameToProbationID nodeName) = true ∧
      (setNodeAsSuspectOffline gd earlier nodeName).store.GetLocalNodeInfo nodeName =
        .ok { info with Status := NodeStatus.NODE_STATUS_SUSPECT_DOWN }) := by
  refine ⟨?_, ?_, ?_⟩
  · intro hpeer hcheck info hinfo hs
    rw [NotifyAlive_suspect_down env gd now node hpeer hcheck info hinfo hs]
    exact ⟨GetLocalNodeInfo_setStatus_self gd.store _ _ info hinfo, holds_Remove _ _, rfl⟩
  · intro h
    by_cases hself : parseMemberlistNodeName gd node.Name = gd.nodeId
    · rw [NotifyAlive_self env gd now node hself]
      rfl
    · cases hcheck : gossipChecks env gd node with
      | some err =>
        rw [NotifyAlive_incompatible env gd now node hself err hcheck]
        rfl
      | none =>
        have hstatus : ∀ info,
            gd.store.GetLocalNodeInfo (parseMemberlistNodeName gd node.Name) = .ok info →
            info.Status ≠ NodeStatus.NODE_STATUS_SUSPECT_DOWN := by
          rcases h with h | h | h
          · exact absurd h hself
          · exact absurd hcheck h
          · exact h
        rcases GetLocalNodeInfo_cases gd.store (parseMemberlistNodeName gd node.Name) with
          ⟨v, hv, _⟩ | ⟨e, he, _⟩
        · by_cases hup : v.Status = NodeStatus.NODE_STATUS_UP
          · rw [NotifyAlive_already_up env gd now node hself hcheck v hv hup]
            rfl
          · rw [NotifyAlive_other_status env gd now node hself hcheck v hv hup (hstatus v hv)]
            rfl
        · rw [NotifyAlive_unknown env gd now node hself hcheck e he]
          rfl
  · intro earlier nodeName info hinfo
    rw [setNodeAsSuspectOffline_present gd earlier nodeName info hinfo]
    refine ⟨?_, GetLocalNodeInfo_setStatus_self gd.store _ _ info hinfo⟩
    cases h : gd.nodeDownProbationManager.holds (nodeNameToProbationID nodeName) with
    | true => simpa [Probation.Exists, Probation.holds] using h
    | false =>
      simp only [Bool.false_eq_true, if_false]
      exact (holds_Add_fresh _ _ _ _ _ (by simpa [Probation.Exists, Probation.holds] using h)).2

/-- C7 at a concrete input: `n3` is put in probation by
`setNodeAsSuspectOffline` and then reports alive. -/
theorem NotifyAlive_cancels_probation_witness :
    (setNodeAsSuspectOffline (sampleDelegate .QUORUM_PROVIDER_DEFAULT) 3
        "n3").nodeDownProbationManager.holds "gossip-n3" = true ∧
    (NotifyAlive ⟨sampleDecode, pingNobody, listOrder⟩
        (setNodeAsSuspectOffline (sampleDelegate .QUORUM_PROVIDER_DEFAULT) 3 "n3") 7
        ⟨"n3v1", "10.0.0.3", []⟩).1.nodeDownProbationManager.holds "gossip-n3" = false :=
  ⟨((NotifyAlive_cancels_probation ⟨sampleDecode, pingNobody, listOrder⟩
      (sampleDelegate .QUORUM_PROVIDER_DEFAULT) 7 ⟨"n3v1", "10.0.0.3", []⟩).2.2 3 "n3"
      ⟨"n3", "10.0.0.3", "zone2", .NODE_STATUS_SUSPECT_DOWN⟩ rfl).1,
   ((NotifyAlive_cancels_probation ⟨sampleDecode, pingNobody, listOrder⟩
      (setNodeAsSuspectOffline (sampleDelegate .QUORUM_PROVIDER_DEFAULT) 3 "n3") 7
      ⟨"n3v1", "10.0.0.3", []⟩).1 (by decide) (by decide)
      ⟨"n3", "10.0.0.3", "zone2", .NODE_STATUS_SUSPECT_DOWN⟩ rfl rfl).2.1⟩

/-! ## C8: expiry of a probation entry -/

/-- C8: when a probation entry expires, the callback returns nil and sends no
state event. If the local node's own status is `UP`, the peer named by the
probation id is marked `DOWN` (its entry in the node map, when it has one,
gets status `DOWN`; nothing else changes) and the entry is removed. If the
local node's own status is anything else, the store is left unchanged and the
same probation id is added again with re-add allowed, which re-arms its
deadline. -/
theorem probationExpired_marks_down_iff_self_up (gd : GossipDelegate σ) (now : Nat)
    (probationID : String) (nodeData : Option String) :
    (probationExpiredOnSuspectedDownNode gd now probationID nodeData).2 = none ∧
    (probationExpiredOnSuspectedDownNode gd now probationID nodeData).1.stateEvent = gd.stateEvent ∧
    (gd.store.GetSelfStatus = some NodeStatus.NODE_STATUS_UP →
      (probationExpiredOnSuspectedDownNode gd now probationID nodeData).1.store =
        (gd.store.UpdateNodeStatus (probationIDToNodeName probationID)
          NodeStatus.NODE_STATUS_DOWN).1 ∧
      (∀ info, gd.store.GetLocalNodeInfo (probationIDToNodeName probationID) = .ok info →
        (probationExpiredOnSuspectedDownNode gd now probationID nodeData).1.store.GetLocalNodeInfo
            (probationIDToNodeName probationID) =
          .ok { info with Status := NodeStatus.NODE_STATUS_DOWN }) ∧
      (∀ other, other ≠ probationIDToNodeName probationID →
        (probationExpiredOnSuspectedDownNode gd now probationID nodeData).1.store.GetLocalNodeInfo other =
          gd.store.GetLocalNodeInfo other) ∧
      (probationExpiredOnSuspectedDownNode gd now probationID nodeData).1.nodeDownProbationManager.holds
          probationID = false ∧
      (probationExpiredOnSuspectedDownNode gd now probationID nodeData).1.nodeDownProbationManager.calls =
        gd.nodeDownProbationManager.calls ++ [ProbationCall.Remove probationID]) ∧
    (gd.store.GetSelfStatus ≠ some NodeStatus.NODE_STATUS_UP →
      (probationExpiredOnSuspectedDownNode gd now probationID nodeData).1.store = gd.store ∧
      (probationExpiredOnSuspectedDownNode gd now probationID nodeData).1.nodeDownProbationManager.calls =
        gd.nodeDownProbationManager.calls ++ [ProbationCall.Add probationID none true] ∧
      (probationExpiredOnSuspectedDownNode gd now probationID nodeData).1.nodeDownProbationManager.holds
          probationID = true ∧
      ⟨probationID, none, now + gd.nodeDownProbationManager.probationTimeout⟩ ∈
        (probationExpiredOnSuspectedDownNode gd now
          probationID nodeData).1.nodeDownProbationManager.entries) := by
  by_cases hup : gd.store.GetSelfStatus = some NodeStatus.NODE_STATUS_UP
  · have hrun : probationExpiredOnSuspectedDownNode gd now probationID nodeData =
        ({ gd with
            store := (gd.store.UpdateNodeStatus (probationIDToNodeName probationID)
              NodeStatus.NODE_STATUS_DOWN).1,
            nodeDownProbationManager := (gd.nodeDownProbationManager.Remove probationID).1 },
          none) := by
      unfold probationExpiredOnSuspectedDownNode
      simp only [hup, ne_eq, not_true_eq_false, if_false]
    rw [hrun]
    refine ⟨rfl, rfl, fun _ => ⟨rfl, ?_, ?_, holds_Remove _ _, rfl⟩, fun h => absurd hup h⟩
    · intro info hinfo
      show GossipStoreImpl.GetLocalNodeInfo (gd.store.UpdateNodeStatus _ _).1 _ = _
      rw [UpdateNodeStatus_of_present gd.store _ _ info hinfo]
      exact GetLocalNodeInfo_setStatus_self gd.store _ _ info hinfo
    · intro other hne
      show GossipStoreImpl.GetLocalNodeInfo (gd.store.UpdateNodeStatus _ _).1 _ = _
      rcases GetLocalNodeInfo_cases gd.store (probationIDToNodeName probationID) with
        ⟨v, hv, _⟩ | ⟨e, _, hl⟩
      · rw [UpdateNodeStatus_of_present gd.store _ _ v hv]
        exact GetLocalNodeInfo_setStatus_other gd.store _ other _ hne
      · rw [UpdateNodeStatus_of_absent gd.store _ _ hl]
  · have hrun : probationExpiredOnSuspectedDownNode gd now probationID nodeData =
        ({ gd with nodeDownProbationManager :=
            (gd.nodeDownProbationManager.Add now probationID none true).1 }, none) := by
      unfold probationExpiredOnSuspectedDownNode
      simp only [ne_eq, hup, not_false_eq_true, if_true]
    rw [hrun]
    have hadd := holds_Add_again gd.nodeDownProbationManager now probationID none
    exact ⟨rfl, rfl, fun h => absurd h hup, fun _ => ⟨rfl, hadd.2.1, hadd.1, hadd.2.2.1⟩⟩

/-- C8 at a concrete input: the local node `n1` is `UP` and the entry of `n3`
expires. -/
theorem probationExpired_marks_down_iff_self_up_witness :
    (probationExpiredOnSuspectedDownNode (sampleDelegate .QUORUM_PROVIDER_DEFAULT) 9
        "gossip-n3" none).1.store.GetLocalNodeInfo "n3" =
      .ok ⟨"n3", "10.0.0.3", "zone2", .NODE_STATUS_DOWN⟩ :=
  ((probationExpired_marks_down_iff_self_up (sampleDelegate .QUORUM_PROVIDER_DEFAULT) 9
      "gossip-n3" none).2.2.1 rfl).2.1 ⟨"n3", "10.0.0.3", "zone2", .NODE_STATUS_SUSPECT_DOWN⟩ rfl

/-! ## C9, C10: a peer observed leaving -/

theorem isClusterDomainSuspectDown_absent (ping : String → String → Except String Nat)
    (rangeOrder : NodeInfoMap → List String) (s : GossipStoreImpl) (nodeId : String)
    (h : s.nodeMap.lookup nodeId = none) :
    isClusterDomainSuspectDown ping rangeOrder s nodeId = (false, []) := by
  simp [isClusterDomainSuspectDown, GossipStoreImpl.GetLocalNodeInfo, h]

theorem NotifyLeaveDone_simple (env : Env) (gd : GossipDelegate σ) (now later : Nat)
    (node : Node) (hpeer : parseMemberlistNodeName gd node.Name ≠ gd.nodeId)
    (hprov : gd.quorumProvider ≠ QuorumProviderType.QUORUM_PROVIDER_FAILURE_DOMAINS) :
    NotifyLeaveDone env gd now later node =
      updateGossipTs (setNodeOffline gd (parseMemberlistNodeName gd node.Name)) now := by
  simp [NotifyLeaveDone, NotifyLeave, hpeer, hprov]

theorem NotifyLeaveDone_failure_domains (env : Env) (gd : GossipDelegate σ) (now later : Nat)
    (node : Node) (hpeer : parseMemberlistNodeName gd node.Name ≠ gd.nodeId)
    (hprov : gd.quorumProvider = QuorumProviderType.QUORUM_PROVIDER_FAILURE_DOMAINS) :
    NotifyLeaveDone env gd now later node =
      leaveSuspicionTask env (updateGossipTs gd now) later
        (parseMemberlistNodeName gd node.Name) := by
  simp [NotifyLeaveDone, NotifyLeave, hpeer, hprov]

theorem leaveSuspicionTask_not_suspect (env : Env) (gd : GossipDelegate σ) (later : Nat)
    (nodeName : String)
    (h : (isClusterDomainSuspectDown env.ping env.rangeOrder gd.store nodeName).1 = false) :
    leaveSuspicionTask env gd later nodeName = setNodeOffline gd nodeName := by
  simp [leaveSuspicionTask, h]

theorem leaveSuspicionTask_suspect (env : Env) (gd : GossipDelegate σ) (later : Nat)
    (nodeName : String)
    (h : (isClusterDomainSuspectDown env.ping env.rangeOrder gd.store nodeName).1 = true) :
    leaveSuspicionTask env gd later nodeName = setNodeAsSuspectOffline gd later nodeName := by
  simp [leaveSuspicionTask, h]

/-- C9, the claim as stated fails: a peer that is not in the node map leaves,
the quorum provider is not of the failure-domains type, and no `NODE_LEAVE` is
sent (the status update fails and `setNodeOffline` returns early). -/
theorem NotifyLeave_unknown_peer_sends_nothing :
    parseMemberlistNodeName (sampleDelegate .QUORUM_PROVIDER_DEFAULT) "n9v1" ≠
        (sampleDelegate .QUORUM_PROVIDER_DEFAULT).nodeId ∧
    (sampleDelegate .QUORUM_PROVIDER_DEFAULT).quorumProvider ≠
        QuorumProviderType.QUORUM_PROVIDER_FAILURE_DOMAINS ∧
    (NotifyLeaveDone ⟨sampleDecode, pingNobody, listOrder⟩
        (sampleDelegate .QUORUM_PROVIDER_DEFAULT) 7 8 ⟨"n9v1", "10.0.0.9", []⟩).stateEvent = [] ∧
    ¬ (NotifyLeaveDone ⟨sampleDecode, pingNobody, listOrder⟩
        (sampleDelegate .QUORUM_PROVIDER_DEFAULT) 7 8 ⟨"n9v1", "10.0.0.9", []⟩).stateEvent =
      (sampleDelegate .QUORUM_PROVIDER_DEFAULT).stateEvent ++ [StateEvent.NODE_LEAVE] := by
  decide

/-- C9, amended: for every peer (name different from self) that is present in
the node map, when the quorum provider is not of the failure-domains type, or
when it is and the suspicion check returns false, `NotifyLeave` marks the peer
`DOWN` in the node map (no other entry changes), sends exactly one
`NODE_LEAVE` and makes no call on the probation manager. -/
theorem NotifyLeave_known_peer_offline (env : Env) (gd : GossipDelegate σ) (now later : Nat)
    (node : Node) (info : NodeInfo)
    (hpeer : parseMemberlistNodeName gd node.Name ≠ gd.nodeId)
    (hpresent : gd.store.GetLocalNodeInfo (parseMemberlistNodeName gd node.Name) = .ok info)
    (hcase : gd.quorumProvider ≠ QuorumProviderType.QUORUM_PROVIDER_FAILURE_DOMAINS ∨
      (isClusterDomainSuspectDown env.ping env.rangeOrder gd.store
        (parseMemberlistNodeName gd node.Name)).1 = false) :
    (NotifyLeaveDone env gd now later node).store.GetLocalNodeInfo
        (parseMemberlistNodeName gd node.Name) =
      .ok { info with Status := NodeStatus.NODE_STATUS_DOWN } ∧
    (∀ other, other ≠ parseMemberlistNodeName gd node.Name →
      (NotifyLeaveDone env gd now later node).store.GetLocalNodeInfo other =
        gd.store.GetLocalNodeInfo other) ∧
    (NotifyLeaveDone env gd now later node).stateEvent =
      gd.stateEvent ++ [StateEvent.NODE_LEAVE] ∧
    (NotifyLeaveDone env gd now later node).nodeDownProbationManager =
      gd.nodeDownProbationManager := by
  have hrun : NotifyLeaveDone env gd now later node =
      updateGossipTs
        { gd with
          store := { gd.store with nodeMap := (setStatus gd.store.nodeMap
            (parseMemberlistNodeName gd node.Name) NodeStatus.NODE_STATUS_DOWN) },
          stateEvent := gd.stateEvent ++ [StateEvent.NODE_LEAVE] } now := by
    by_cases hprov : gd.quorumProvider = QuorumProviderType.QUORUM_PROVIDER_FAILURE_DOMAINS
    · have hsus := hcase.resolve_left (fun h => h hprov)
      rw [NotifyLeaveDone_failure_domains env gd now later node hpeer hprov,
        leaveSuspicionTask_not_suspect env (updateGossipTs gd now) later _ hsus,
        setNodeOffline_present (updateGossipTs gd now) _ info hpresent]
      rfl
    · rw [NotifyLeaveDone_simple env gd now later node hpeer hprov,
        setNodeOffline_present _ _ info hpresent]
  rw [hrun]
  exact ⟨GetLocalNodeInfo_setStatus_self gd.store _ _ info hpresent,
    fun other hne => GetLocalNodeInfo_setStatus_other gd.store _ other _ hne, rfl, rfl⟩

/-- C9 amended, at a concrete input: the known peer `n2` leaves under the
default quorum provider. -/
theorem NotifyLeave_known_peer_offline_witness :
    (NotifyLeaveDone ⟨sampleDecode, pingNobody, listOrder⟩
        (sampleDelegate .QUORUM_PROVIDER_DEFAULT) 7 8 ⟨"n2v1", "10.0.0.2", []⟩).stateEvent =
      [StateEvent.NODE_LEAVE] :=
  (NotifyLeave_known_peer_offline ⟨sampleDecode, pingNobody, listOrder⟩
    (sampleDelegate .QUORUM_PROVIDER_DEFAULT) 7 8 ⟨"n2v1", "10.0.0.2", []⟩
    ⟨"n2", "10.0.0.2", "zone1", .NODE_STATUS_UP⟩ (by decide) rfl (Or.inl (by decide))).2.2.1

/-- C10: for a peer for which the suspicion check returns true under the
failure-domains quorum provider, `NotifyLeave` (once its goroutine has run)
marks the peer `SUSPECT_DOWN`, sends exactly one `NODE_LEAVE`, and afterwards
the probation manager holds an entry for the peer. If an entry for the peer
already existed, `Add` is not called (the only call is `Exists`) and the
entries, with their deadlines, are unchanged; otherwise one entry is added by
one call of `Add` without re-add. -/
theorem NotifyLeave_suspect_peer_probation (env : Env) (gd : GossipDelegate σ)
    (now later : Nat) (node : Node)
    (hpeer : parseMemberlistNodeName gd node.Name ≠ gd.nodeId)
    (hprov : gd.quorumProvider = QuorumProviderType.QUORUM_PROVIDER_FAILURE_DOMAINS)
    (hsuspect : (isClusterDomainSuspectDown env.ping env.rangeOrder gd.store
      (parseMemberlistNodeName gd node.Name)).1 = true) :
    (∃ info, gd.store.GetLocalNodeInfo (parseMemberlistNodeName gd node.Name) = .ok info ∧
      (NotifyLeaveDone env gd now later node).store.GetLocalNodeInfo
          (parseMemberlistNodeName gd node.Name) =
        .ok { info with Status := NodeStatus.NODE_STATUS_SUSPECT_DOWN }) ∧
    (NotifyLeaveDone env gd now later node).stateEvent =
      gd.stateEvent ++ [StateEvent.NODE_LEAVE] ∧
    (NotifyLeaveDone env gd now later node).nodeDownProbationManager.holds
      (nodeNameToProbationID (parseMemberlistNodeName gd node.Name)) = true ∧
    (gd.nodeDownProbationManager.holds
        (nodeNameToProbationID (parseMemberlistNodeName gd node.Name)) = true →
      (NotifyLeaveDone env gd now later node).nodeDownProbationManager.entries =
        gd.nodeDownProbationManager.entries ∧
      (NotifyLeaveDone env gd now later node).nodeDownProbationManager.calls =
        gd.nodeDownProbationManager.calls ++
          [ProbationCall.Exists (nodeNameToProbationID (parseMemberlistNodeName gd node.Name))]) ∧
    (gd.nodeDownProbationManager.holds
        (nodeNameToProbationID (parseMemberlistNodeName gd node.Name)) = false →
      (NotifyLeaveDone env gd now later node).nodeDownProbationManager.entries =
        gd.nodeDownProbationManager.entries ++
          [⟨nodeNameToProbationID (parseMemberlistNodeName gd node.Name), none,
            later + gd.nodeDownProbationManager.probationTimeout⟩] ∧
      (NotifyLeaveDone env gd now later node).nodeDownProbationManager.calls =
        gd.nodeDownProbationManager.calls ++
          [ProbationCall.Exists (nodeNameToProbationID (parseMemberlistNodeName gd node.Name)),
           ProbationCall.Add (nodeNameToProbationID (parseMemberlistNodeName gd node.Name))
             none false]) := by
  rcases GetLocalNodeInfo_cases gd.store (parseMemberlistNodeName gd node.Name) with
    ⟨v, hv, _⟩ | ⟨e, _, hl⟩
  · rw [NotifyLeaveDone_failure_domains env gd now later node hpeer hprov,
      leaveSuspicionTask_suspect env (updateGossipTs gd now) later _ hsuspect,
      setNodeAsSuspectOffline_present (updateGossipTs gd now) later _ v hv]
    refine ⟨⟨v, hv, GetLocalNodeInfo_setStatus_self gd.store _ _ v hv⟩, rfl, ?_, ?_, ?_⟩
    · show Probation.holds (if gd.nodeDownProbationManager.holds _ = true then _ else _) _ = true
      cases h : gd.nodeDownProbationManager.holds
          (nodeNameToProbationID (parseMemberlistNodeName gd node.Name)) with
      | true => simpa [Probation.Exists, Probation.holds] using h
      | false =>
        simp only [Bool.false_eq_true, if_false]
        exact (holds_Add_fresh _ _ _ _ _
          (by simpa [Probation.Exists, Probation.holds] using h)).2
    · intro h
      show Probation.entries (if gd.nodeDownProbationManager.holds _ = true then _ else _) = _ ∧
        Probation.calls (if gd.nodeDownProbationManager.holds _ = true then _ else _) = _
      rw [if_pos h]
      exact ⟨rfl, rfl⟩
    · intro h
      show Probation.entries (if gd.nodeDownProbationManager.holds _ = true then _ else _) = _ ∧
        Probation.calls (if gd.nodeDownProbationManager.holds _ = true then _ else _) = _
      rw [if_neg (by simp [h])]
      have hfresh : (gd.nodeDownProbationManager.Exists
          (nodeNameToProbationID (parseMemberlistNodeName gd node.Name))).1.holds
          (nodeNameToProbationID (parseMemberlistNodeName gd node.Name)) = false := by
        simpa [Probation.Exists, Probation.holds] using h
      have hadd := (holds_Add_fresh _ later _ none false hfresh).1
      show Probation.entries (Probation.Add (gd.nodeDownProbationManager.Exists _).1 _ _ _ _).1 = _ ∧
        Probation.calls (Probation.Add (gd.nodeDownProbationManager.Exists _).1 _ _ _ _).1 = _
      rw [hadd]
      simp [Probation.Exists]
  · rw [isClusterDomainSuspectDown_absent env.ping env.rangeOrder gd.store _ hl] at hsuspect
    cases hsuspect

/-- C10 at a concrete input: under the failure-domains provider the peer `n2`
leaves and nobody in its domain answers the ping. -/
theorem NotifyLeave_suspect_peer_probation_witness :
    (NotifyLeaveDone ⟨sampleDecode, pingNobody, listOrder⟩
        (sampleDelegate .QUORUM_PROVIDER_FAILURE_DOMAINS) 7 8
        ⟨"n2v1", "10.0.0.2", []⟩).nodeDownProbationManager.holds "gossip-n2" = true ∧
    (NotifyLeaveDone ⟨sampleDecode, pingNobody, listOrder⟩
        (sampleDelegate .QUORUM_PROVIDER_FAILURE_DOMAINS) 7 8
        ⟨"n2v1", "10.0.0.2", []⟩).stateEvent = [StateEvent.NODE_LEAVE] :=
  have h := NotifyLeave_suspect_peer_probation ⟨sampleDecode, pingNobody, listOrder⟩
    (sampleDelegate .QUORUM_PROVIDER_FAILURE_DOMAINS) 7 8 ⟨"n2v1", "10.0.0.2", []⟩
    (by decide) rfl (by decide)
  ⟨h.2.2.1, h.2.1⟩


/-! ## C11, C12: incompatible nodes, and joins -/

theorem lookup_filter_ne (m : NodeInfoMap) (nodeId k : String) :
    (m.filter (fun kv => kv.1 ≠ nodeId)).lookup k = if k = nodeId then none else m.lookup k := by
  induction m with
  | nil => simp [List.lookup]
  | cons p rest ih =>
    obtain ⟨k0, v0⟩ := p
    by_cases h0 : k0 = nodeId
    · have hfil : List.filter (fun kv : String × NodeInfo => decide (kv.1 ≠ nodeId))
          ((k0, v0) :: rest) =
          List.filter (fun kv : String × NodeInfo => decide (kv.1 ≠ nodeId)) rest := by
        simp [List.filter, h0]
      rw [hfil, ih]
      by_cases hk : k = nodeId
      · simp [hk]
      · have hbeq : (k == k0) = false := by rw [h0]; simpa using hk
        simp [hk, List.lookup, hbeq]
    · have hfil : List.filter (fun kv : String × NodeInfo => decide (kv.1 ≠ nodeId))
          ((k0, v0) :: rest) =
          (k0, v0) :: List.filter (fun kv : String × NodeInfo => decide (kv.1 ≠ nodeId)) rest := by
        simp [List.filter, h0]
      rw [hfil]
      by_cases hk : k = k0
      · subst hk
        simp [List.lookup, h0]
      · have hbeq : (k == k0) = false := by simpa using hk
        simp only [List.lookup, hbeq]
        exact ih

theorem GetLocalNodeInfo_RemoveNode_self (s : GossipStoreImpl) (k : String) :
    (s.RemoveNode k).GetLocalNodeInfo k = .error "node not found" := by
  have h : (s.nodeMap.filter (fun kv => kv.1 ≠ k)).lookup k = none := by
    rw [lookup_filter_ne, if_pos rfl]
  show (match (s.nodeMap.filter (fun kv => kv.1 ≠ k)).lookup k with
    | some info => Except.ok info
    | none => Except.error "node not found") = _
  rw [h]

theorem GetLocalNodeInfo_RemoveNode_other (s : GossipStoreImpl) (k other : String)
    (hne : other ≠ k) :
    (s.RemoveNode k).GetLocalNodeInfo other = s.GetLocalNodeInfo other := by
  have h : (s.nodeMap.filter (fun kv => kv.1 ≠ k)).lookup other = s.nodeMap.lookup other := by
    rw [lookup_filter_ne, if_neg hne]
  show (match (s.nodeMap.filter (fun kv => kv.1 ≠ k)).lookup other with
    | some info => Except.ok info
    | none => Except.error "node not found") = _
  rw [h]
  rfl

theorem NotifyAlive_error_cases (env : Env) (gd : GossipDelegate σ) (now : Nat) (node : Node)
    (hpeer : parseMemberlistNodeName gd node.Name ≠ gd.nodeId)
    (hcheck : gossipChecks env gd node = none) :
    (NotifyAlive env gd now node).2 = none := by
  rcases GetLocalNodeInfo_cases gd.store (parseMemberlistNodeName gd node.Name) with
    ⟨v, hv, _⟩ | ⟨e, he, _⟩
  · by_cases hup : v.Status = NodeStatus.NODE_STATUS_UP
    · rw [NotifyAlive_already_up env gd now node hpeer hcheck v hv hup]
    · by_cases hs : v.Status = NodeStatus.NODE_STATUS_SUSPECT_DOWN
      · rw [NotifyAlive_suspect_down env gd now node hpeer hcheck v hv hs]
      · rw [NotifyAlive_other_status env gd now node hpeer hcheck v hv hup hs]
  · rw [NotifyAlive_unknown env gd now node hpeer hcheck e he]

/-- C11: `NotifyAlive` returns a non-nil error exactly when the node is not
self and `gossipChecks` fails; then the error is the one of `gossipChecks`, the
node is removed from the node map, the entry of every other node is unchanged
and no state event is sent. For self, `NotifyAlive` sends exactly one
`SELF_ALIVE`, returns nil, leaves the store unchanged and performs no
compatibility check (its result is the same for every decoder of the
metadata). -/
theorem NotifyAlive_error_iff_incompatible_peer (env : Env) (gd : GossipDelegate σ)
    (now : Nat) (node : Node) :
    ((NotifyAlive env gd now node).2 ≠ none ↔
      (parseMemberlistNodeName gd node.Name ≠ gd.nodeId ∧ gossipChecks env gd node ≠ none)) ∧
    (parseMemberlistNodeName gd node.Name ≠ gd.nodeId →
      ∀ err, gossipChecks env gd node = some err →
        (NotifyAlive env gd now node).2 = some err ∧
        (NotifyAlive env gd now node).1.store =
          gd.store.RemoveNode (parseMemberlistNodeName gd node.Name) ∧
        (NotifyAlive env gd now node).1.store.GetLocalNodeInfo
            (parseMemberlistNodeName gd node.Name) = .error "node not found" ∧
        (∀ other, other ≠ parseMemberlistNodeName gd node.Name →
          (NotifyAlive env gd now node).1.store.GetLocalNodeInfo other =
            gd.store.GetLocalNodeInfo other) ∧
        (NotifyAlive env gd now node).1.stateEvent = gd.stateEvent) ∧
    (parseMemberlistNodeName gd node.Name = gd.nodeId →
      (NotifyAlive env gd now node).2 = none ∧
      (NotifyAlive env gd now node).1.stateEvent = gd.stateEvent ++ [StateEvent.SELF_ALIVE] ∧
      (NotifyAlive env gd now node).1.store = gd.store ∧
      ∀ env2 : Env, NotifyAlive env2 gd now node = NotifyAlive env gd now node) := by
  refine ⟨?_, ?_, ?_⟩
  · by_cases hself : parseMemberlistNodeName gd node.Name = gd.nodeId
    · rw [NotifyAlive_self env gd now node hself]
      simp [hself]
    · cases hcheck : gossipChecks env gd node with
      | some err =>
        rw [NotifyAlive_incompatible env gd now node hself err hcheck]
        simp [hself]
      | none =>
        rw [NotifyAlive_error_cases env gd now node hself hcheck]
        simp
  · intro hpeer err hcheck
    rw [NotifyAlive_incompatible env gd now node hpeer err hcheck]
    exact ⟨rfl, rfl, GetLocalNodeInfo_RemoveNode_self gd.store _,
      fun other hne => GetLocalNodeInfo_RemoveNode_other gd.store _ other hne, rfl⟩
  · intro hself
    refine ⟨?_, ?_, ?_, ?_⟩
    · rw [NotifyAlive_self env gd now node hself]
    · rw [NotifyAlive_self env gd now node hself]; rfl
    · rw [NotifyAlive_self env gd now node hself]; rfl
    · intro env2
      rw [NotifyAlive_self env gd now node hself, NotifyAlive_self env2 gd now node hself]

/-- C11 at a concrete input: the peer `n2` is decoded at gossip version `v2`
and rejected, and the local node `n1` reports alive. -/
theorem NotifyAlive_error_iff_incompatible_peer_witness :
    (NotifyAlive ⟨fun _ => .ok ⟨"c1", "v2", "zone1"⟩, pingNobody, listOrder⟩
        (sampleDelegate .QUORUM_PROVIDER_DEFAULT) 7 ⟨"n2v1", "10.0.0.2", []⟩).2 ≠ none ∧
    (NotifyAlive ⟨sampleDecode, pingNobody, listOrder⟩
        (sampleDelegate .QUORUM_PROVIDER_DEFAULT) 7 ⟨"n1v1", "10.0.0.1", []⟩).1.stateEvent =
      [StateEvent.SELF_ALIVE] :=
  ⟨(NotifyAlive_error_iff_incompatible_peer ⟨fun _ => .ok ⟨"c1", "v2", "zone1"⟩, pingNobody,
      listOrder⟩ (sampleDelegate .QUORUM_PROVIDER_DEFAULT) 7 ⟨"n2v1", "10.0.0.2", []⟩).1.mpr
      ⟨by decide, by decide⟩,
   ((NotifyAlive_error_iff_incompatible_peer ⟨sampleDecode, pingNobody, listOrder⟩
      (sampleDelegate .QUORUM_PROVIDER_DEFAULT) 7 ⟨"n1v1", "10.0.0.1", []⟩).2.2
      (by decide)).2.1⟩

theorem NotifyJoin_self (env : Env) (gd : GossipDelegate σ) (now : Nat) (node : Node)
    (hself : parseMemberlistNodeName gd node.Name = gd.nodeId) :
    NotifyJoin env gd now node = gd := by
  unfold NotifyJoin
  simp only [hself, if_true]

theorem NotifyJoin_incompatible (env : Env) (gd : GossipDelegate σ) (now : Nat) (node : Node)
    (hpeer : parseMemberlistNodeName gd node.Name ≠ gd.nodeId) (err : String)
    (hcheck : gossipChecks env gd node = some err) :
    NotifyJoin env gd now node =
      { updateGossipTs gd now with
        store := gd.store.RemoveNode (parseMemberlistNodeName gd node.Name) } := by
  have hcheck2 : gossipChecks env (updateGossipTs gd now) node = some err := hcheck
  unfold NotifyJoin
  simp only [hpeer, if_false, hcheck2]
  rfl

theorem NotifyJoin_accepted (env : Env) (gd : GossipDelegate σ) (now : Nat) (node : Node)
    (hpeer : parseMemberlistNodeName gd node.Name ≠ gd.nodeId)
    (hcheck : gossipChecks env gd node = none) :
    NotifyJoin env gd now node = updateGossipTs gd now := by
  have hcheck2 : gossipChecks env (updateGossipTs gd now) node = none := hcheck
  unfold NotifyJoin
  simp only [hpeer, if_false, hcheck2]

/-- C12: `NotifyJoin` never sends a state event and never changes a node
status (every entry present afterwards is the entry that was there before). It
removes the joining node from the node map when the node is not self and the
version and cluster-id check fails, and in every other case leaves the store
unchanged; a self join changes nothing at all. -/
theorem NotifyJoin_frame (env : Env) (gd : GossipDelegate σ) (now : Nat) (node : Node) :
    (NotifyJoin env gd now node).stateEvent = gd.stateEvent ∧
    (∀ k info, (NotifyJoin env gd now node).store.GetLocalNodeInfo k = .ok info →
      gd.store.GetLocalNodeInfo k = .ok info) ∧
    ((parseMemberlistNodeName gd node.Name ≠ gd.nodeId ∧ gossipChecks env gd node ≠ none) →
      (NotifyJoin env gd now node).store =
        gd.store.RemoveNode (parseMemberlistNodeName gd node.Name) ∧
      (NotifyJoin env gd now node).store.GetLocalNodeInfo
          (parseMemberlistNodeName gd node.Name) = .error "node not found" ∧
      ∀ other, other ≠ parseMemberlistNodeName gd node.Name →
        (NotifyJoin env gd now node).store.GetLocalNodeInfo other =
          gd.store.GetLocalNodeInfo other) ∧
    (¬ (parseMemberlistNodeName gd node.Name ≠ gd.nodeId ∧ gossipChecks env gd node ≠ none) →
      (NotifyJoin env gd now node).store = gd.store) ∧
    (parseMemberlistNodeName gd node.Name = gd.nodeId → NotifyJoin env gd now node = gd) := by
  by_cases hself : parseMemberlistNodeName gd node.Name = gd.nodeId
  · rw [NotifyJoin_self env gd now node hself]
    exact ⟨rfl, fun _ _ h => h, fun h => absurd hself h.1, fun _ => rfl, fun _ => rfl⟩
  · cases hcheck : gossipChecks env gd node with
    | some err =>
      rw [NotifyJoin_incompatible env gd now node hself err hcheck]
      refine ⟨rfl, ?_, fun _ => ⟨rfl, GetLocalNodeInfo_RemoveNode_self gd.store _,
        fun other hne => GetLocalNodeInfo_RemoveNode_other gd.store _ other hne⟩,
        fun h => absurd ⟨hself, by simp⟩ h, fun h => absurd h hself⟩
      intro k info hk
      by_cases hkn : k = parseMemberlistNodeName gd node.Name
      · subst hkn
        have hgone := GetLocalNodeInfo_RemoveNode_self gd.store
          (parseMemberlistNodeName gd node.Name)
        have hk2 : (gd.store.RemoveNode (parseMemberlistNodeName gd node.Name)).GetLocalNodeInfo
            (parseMemberlistNodeName gd node.Name) = .ok info := hk
        rw [hgone] at hk2
        cases hk2
      · have hk2 : (gd.store.RemoveNode (parseMemberlistNodeName gd node.Name)).GetLocalNodeInfo
            k = .ok info := hk
        rw [GetLocalNodeInfo_RemoveNode_other gd.store _ k hkn] at hk2
        exact hk2
    | none =>
      rw [NotifyJoin_accepted env gd now node hself hcheck]
      exact ⟨rfl, fun _ _ h => h, fun h => absurd rfl h.2, fun _ => rfl, fun h => absurd h hself⟩

/-- C12 at a concrete input: `n2` joins at gossip version `v2` and is
removed. -/
theorem NotifyJoin_frame_witness :
    (NotifyJoin ⟨fun _ => .ok ⟨"c1", "v2", "zone1"⟩, pingNobody, listOrder⟩
        (sampleDelegate .QUORUM_PROVIDER_DEFAULT) 7
        ⟨"n2v1", "10.0.0.2", []⟩).store.GetLocalNodeInfo "n2" = .error "node not found" :=
  ((NotifyJoin_frame ⟨fun _ => .ok ⟨"c1", "v2", "zone1"⟩, pingNobody, listOrder⟩
    (sampleDelegate .QUORUM_PROVIDER_DEFAULT) 7 ⟨"n2v1", "10.0.0.2", []⟩).2.2.1
    ⟨by decide, by decide⟩).2.1


/-! ## C13: who writes the local node's status -/

theorem GetSelfStatus_setStatus_other (s : GossipStoreImpl) (k : String) (status : NodeStatus)
    (hne : k ≠ s.id) :
    GossipStoreImpl.GetSelfStatus { s with nodeMap := setStatus s.nodeMap k status } =
      s.GetSelfStatus := by
  have hne2 : ¬ s.id = k := fun h => hne h.symm
  simp only [GossipStoreImpl.GetSelfStatus, lookup_setStatus, hne2, if_false]
  cases s.nodeMap.lookup s.id <;> rfl

theorem GetSelfStatus_RemoveNode_other (s : GossipStoreImpl) (k : String) (hne : k ≠ s.id) :
    (s.RemoveNode k).GetSelfStatus = s.GetSelfStatus := by
  have hne2 : ¬ s.id = k := fun h => hne h.symm
  have h : (s.nodeMap.filter (fun kv => kv.1 ≠ k)).lookup s.id = s.nodeMap.lookup s.id := by
    rw [lookup_filter_ne, if_neg hne2]
  show Option.map NodeInfo.Status ((s.nodeMap.filter (fun kv => kv.1 ≠ k)).lookup s.id) = _
  rw [h]
  rfl

theorem GetSelfStatus_UpdateNodeStatus_other (s : GossipStoreImpl) (k : String)
    (status : NodeStatus) (hne : k ≠ s.id) :
    (s.UpdateNodeStatus k status).1.GetSelfStatus = s.GetSelfStatus := by
  rcases GetLocalNodeInfo_cases s k with ⟨v, hv, _⟩ | ⟨e, _, hl⟩
  · rw [UpdateNodeStatus_of_present s k status v hv]
    exact GetSelfStatus_setStatus_other s k status hne
  · rw [UpdateNodeStatus_of_absent s k status hl]

theorem setNodeOffline_keeps_self (gd : GossipDelegate σ) (nodeName : String)
    (hne : nodeName ≠ gd.store.id) :
    (setNodeOffline gd nodeName).store.GetSelfStatus = gd.store.GetSelfStatus ∧
    (setNodeOffline gd nodeName).currentState = gd.currentState := by
  rcases GetLocalNodeInfo_cases gd.store nodeName with ⟨v, hv, _⟩ | ⟨e, _, hl⟩
  · rw [setNodeOffline_present gd nodeName v hv]
    exact ⟨GetSelfStatus_setStatus_other gd.store nodeName _ hne, rfl⟩
  · rw [setNodeOffline_absent gd nodeName hl]
    exact ⟨rfl, rfl⟩

theorem setNodeAsSuspectOffline_keeps_self (gd : GossipDelegate σ) (now : Nat)
    (nodeName : String) (hne : nodeName ≠ gd.store.id) :
    (setNodeAsSuspectOffline gd now nodeName).store.GetSelfStatus = gd.store.GetSelfStatus ∧
    (setNodeAsSuspectOffline gd now nodeName).currentState = gd.currentState := by
  rcases GetLocalNodeInfo_cases gd.store nodeName with ⟨v, hv, _⟩ | ⟨e, _, hl⟩
  · rw [setNodeAsSuspectOffline_present gd now nodeName v hv]
    exact ⟨GetSelfStatus_setStatus_other gd.store nodeName _ hne, rfl⟩
  · rw [setNodeAsSuspectOffline_absent gd now nodeName hl]
    exact ⟨rfl, rfl⟩

theorem leaveSuspicionTask_keeps_self (env : Env) (gd : GossipDelegate σ) (later : Nat)
    (nodeName : String) (hne : nodeName ≠ gd.store.id) :
    (leaveSuspicionTask env gd later nodeName).store.GetSelfStatus = gd.store.GetSelfStatus ∧
    (leaveSuspicionTask env gd later nodeName).currentState = gd.currentState := by
  cases h : (isClusterDomainSuspectDown env.ping env.rangeOrder gd.store nodeName).1 with
  | true =>
    rw [leaveSuspicionTask_suspect env gd later nodeName h]
    exact setNodeAsSuspectOffline_keeps_self gd later nodeName hne
  | false =>
    rw [leaveSuspicionTask_not_suspect env gd later nodeName h]
    exact setNodeOffline_keeps_self gd nodeName hne

theorem NotifyLeave_peer (gd : GossipDelegate σ) (now : Nat) (node : Node)
    (hpeer : parseMemberlistNodeName gd node.Name ≠ gd.nodeId) :
    NotifyLeave gd now node =
      if gd.quorumProvider = QuorumProviderType.QUORUM_PROVIDER_FAILURE_DOMAINS then
        (updateGossipTs gd now, [parseMemberlistNodeName gd node.Name])
      else (updateGossipTs (setNodeOffline gd (parseMemberlistNodeName gd node.Name)) now, []) := by
  by_cases hprov : gd.quorumProvider = QuorumProviderType.QUORUM_PROVIDER_FAILURE_DOMAINS
  · simp [NotifyLeave, hpeer, hprov]
  · simp [NotifyLeave, hpeer, hprov]

theorem NotifyAlive_peer_keeps_self (env : Env) (gd : GossipDelegate σ) (now : Nat)
    (node : Node) (hid : gd.nodeId = gd.store.id)
    (hpeer : parseMemberlistNodeName gd node.Name ≠ gd.nodeId) :
    (NotifyAlive env gd now node).1.store.GetSelfStatus = gd.store.GetSelfStatus ∧
    (NotifyAlive env gd now node).1.currentState = gd.currentState := by
  have hne : parseMemberlistNodeName gd node.Name ≠ gd.store.id := by rw [← hid]; exact hpeer
  cases hcheck : gossipChecks env gd node with
  | some err =>
    rw [NotifyAlive_incompatible env gd now node hpeer err hcheck]
    exact ⟨GetSelfStatus_RemoveNode_other gd.store _ hne, rfl⟩
  | none =>
    rcases GetLocalNodeInfo_cases gd.store (parseMemberlistNodeName gd node.Name) with
      ⟨v, hv, _⟩ | ⟨e, he, _⟩
    · by_cases hup : v.Status = NodeStatus.NODE_STATUS_UP
      · rw [NotifyAlive_already_up env gd now node hpeer hcheck v hv hup]
        exact ⟨rfl, rfl⟩
      · by_cases hs : v.Status = NodeStatus.NODE_STATUS_SUSPECT_DOWN
        · rw [NotifyAlive_suspect_down env gd now node hpeer hcheck v hv hs]
          exact ⟨GetSelfStatus_setStatus_other gd.store _ _ hne, rfl⟩
        · rw [NotifyAlive_other_status env gd now node hpeer hcheck v hv hup hs]
          exact ⟨GetSelfStatus_setStatus_other gd.store _ _ hne, rfl⟩
    · rw [NotifyAlive_unknown env gd now node hpeer hcheck e he]
      exact ⟨rfl, rfl⟩

theorem NotifyJoin_peer_keeps_self (env : Env) (gd : GossipDelegate σ) (now : Nat)
    (node : Node) (hid : gd.nodeId = gd.store.id)
    (hpeer : parseMemberlistNodeName gd node.Name ≠ gd.nodeId) :
    (NotifyJoin env gd now node).store.GetSelfStatus = gd.store.GetSelfStatus ∧
    (NotifyJoin env gd now node).currentState = gd.currentState := by
  have hne : parseMemberlistNodeName gd node.Name ≠ gd.store.id := by rw [← hid]; exact hpeer
  cases hcheck : gossipChecks env gd node with
  | some err =>
    rw [NotifyJoin_incompatible env gd now node hpeer err hcheck]
    exact ⟨GetSelfStatus_RemoveNode_other gd.store _ hne, rfl⟩
  | none =>
    rw [NotifyJoin_accepted env gd now node hpeer hcheck]
    exact ⟨rfl, rfl⟩

theorem NotifyLeaveDone_peer_keeps_self (env : Env) (gd : GossipDelegate σ) (now later : Nat)
    (node : Node) (hid : gd.nodeId = gd.store.id)
    (hpeer : parseMemberlistNodeName gd node.Name ≠ gd.nodeId) :
    (NotifyLeave gd now node).1.store.GetSelfStatus = gd.store.GetSelfStatus ∧
    (NotifyLeave gd now node).1.currentState = gd.currentState ∧
    (NotifyLeaveDone env gd now later node).store.GetSelfStatus = gd.store.GetSelfStatus ∧
    (NotifyLeaveDone env gd now later node).currentState = gd.currentState := by
  have hne : parseMemberlistNodeName gd node.Name ≠ gd.store.id := by rw [← hid]; exact hpeer
  by_cases hprov : gd.quorumProvider = QuorumProviderType.QUORUM_PROVIDER_FAILURE_DOMAINS
  · rw [NotifyLeave_peer gd now node hpeer, if_pos hprov,
      NotifyLeaveDone_failure_domains env gd now later node hpeer hprov]
    have h := leaveSuspicionTask_keeps_self env (updateGossipTs gd now) later
      (parseMemberlistNodeName gd node.Name) hne
    exact ⟨rfl, rfl, h.1, h.2⟩
  · rw [NotifyLeave_peer gd now node hpeer, if_neg hprov,
      NotifyLeaveDone_simple env gd now later node hpeer hprov]
    have h := setNodeOffline_keeps_self gd (parseMemberlistNodeName gd node.Name) hne
    exact ⟨h.1, h.2, h.1, h.2⟩

/-- C13, the claim as stated fails: with the state machine of section 4.1 and
quorum lost, processing `NODE_LEAVE` in state `Up` changes the worker's current
state to `SuspectNotInQuorum` and the published status of the local node from
`UP` to `SUSPECT_NOT_IN_QUORUM`; with quorum satisfied, processing `NODE_ALIVE`
in state `NotInQuorum` changes the state to `Up`. -/
theorem worker_peer_event_changes_self_status :
    (sampleDelegate .QUORUM_PROVIDER_DEFAULT).currentState = QuorumState.Up ∧
    (sampleDelegate .QUORUM_PROVIDER_DEFAULT).store.GetSelfStatus =
      some NodeStatus.NODE_STATUS_UP ∧
    (handleStateEvent (quorumStateMachine (fun _ => false))
        (sampleDelegate .QUORUM_PROVIDER_DEFAULT) .NODE_LEAVE).1.currentState =
      QuorumState.SuspectNotInQuorum ∧
    (handleStateEvent (quorumStateMachine (fun _ => false))
        (sampleDelegate .QUORUM_PROVIDER_DEFAULT) .NODE_LEAVE).1.store.GetSelfStatus =
      some NodeStatus.NODE_STATUS_SUSPECT_NOT_IN_QUORUM ∧
    (handleStateEvent (quorumStateMachine (fun _ => true))
        { sampleDelegate .QUORUM_PROVIDER_DEFAULT with currentState := QuorumState.NotInQuorum }
        .NODE_ALIVE).1.currentState = QuorumState.Up := by
  decide

/-- C13, amended: the peer callbacks `NotifyJoin`, `NotifyLeave` (with the
goroutine it spawns) and `NotifyAlive` for a peer never write the local node's
status nor the worker's current state; the worker, on `NODE_ALIVE` and
`NODE_LEAVE`, installs the state returned by `NodeAlive` and `NodeLeave`, so
these events leave the current state and the published status unchanged when
that method returns the same state. -/
theorem self_status_not_written_by_peer_callbacks (ops : State σ) (env : Env)
    (gd : GossipDelegate σ) (now later : Nat) (node : Node)
    (hid : gd.nodeId = gd.store.id)
    (hpeer : parseMemberlistNodeName gd node.Name ≠ gd.nodeId) :
    ((NotifyJoin env gd now node).store.GetSelfStatus = gd.store.GetSelfStatus ∧
      (NotifyJoin env gd now node).currentState = gd.currentState) ∧
    ((NotifyLeave gd now node).1.store.GetSelfStatus = gd.store.GetSelfStatus ∧
      (NotifyLeave gd now node).1.currentState = gd.currentState ∧
      (NotifyLeaveDone env gd now later node).store.GetSelfStatus = gd.store.GetSelfStatus ∧
      (NotifyLeaveDone env gd now later node).currentState = gd.currentState) ∧
    ((NotifyAlive env gd now node).1.store.GetSelfStatus = gd.store.GetSelfStatus ∧
      (NotifyAlive env gd now node).1.currentState = gd.currentState) ∧
    (handleStateEvent ops gd .NODE_ALIVE).1.currentState =
      (ops.NodeAlive gd.currentState gd.store.GetLocalState).1 ∧
    (handleStateEvent ops gd .NODE_LEAVE).1.currentState =
      (ops.NodeLeave gd.currentState gd.store.GetLocalState).1 ∧
    (∀ event, event = StateEvent.NODE_ALIVE ∨ event = StateEvent.NODE_LEAVE →
      (invokedTransition ops event gd.currentState gd.store.GetLocalState).1 = gd.currentState →
      (handleStateEvent ops gd event).1.currentState = gd.currentState ∧
      (gd.store.GetSelfStatus = some (ops.NodeStatus gd.currentState) →
        (handleStateEvent ops gd event).1.store.GetSelfStatus = gd.store.GetSelfStatus)) := by
  refine ⟨NotifyJoin_peer_keeps_self env gd now node hid hpeer,
    NotifyLeaveDone_peer_keeps_self env gd now later node hid hpeer,
    NotifyAlive_peer_keeps_self env gd now node hid hpeer, rfl, rfl, ?_⟩
  intro event _ hsame
  have hstate : (handleStateEvent ops gd event).1.currentState = gd.currentState := by
    rw [handleStateEvent_currentState]
    exact hsame
  refine ⟨hstate, ?_⟩
  intro hpub
  rw [handleStateEvent_published, hstate, hpub]
  rfl

/-- C13 amended, at a concrete input: the peer `n2` leaves and the status of
the local node `n1` stays `UP`. -/
theorem self_status_not_written_by_peer_callbacks_witness :
    (NotifyLeaveDone ⟨sampleDecode, pingNobody, listOrder⟩
        (sampleDelegate .QUORUM_PROVIDER_FAILURE_DOMAINS) 7 8
        ⟨"n2v1", "10.0.0.2", []⟩).store.GetSelfStatus = some NodeStatus.NODE_STATUS_UP :=
  ((self_status_not_written_by_peer_callbacks (quorumStateMachine (fun _ => true))
    ⟨sampleDecode, pingNobody, listOrder⟩ (sampleDelegate .QUORUM_PROVIDER_FAILURE_DOMAINS) 7 8
    ⟨"n2v1", "10.0.0.2", []⟩ rfl (by decide)).2.1.2.2.1).trans rfl


/-! ## C14, C19: nodes that are not in the node map -/

/-- C14, the claim as stated fails: the peer `n9`, which is not in the node
map, leaves under the failure-domains provider; the verdict is false with no
ping, but the node is not marked offline: it has no entry afterwards, the node
map is the one before and no `NODE_LEAVE` is sent. -/
theorem NotifyLeave_unknown_node_not_marked_offline :
    isClusterDomainSuspectDown pingNobody listOrder
        (sampleDelegate .QUORUM_PROVIDER_FAILURE_DOMAINS).store "n9" = (false, []) ∧
    (NotifyLeaveDone ⟨sampleDecode, pingNobody, listOrder⟩
        (sampleDelegate .QUORUM_PROVIDER_FAILURE_DOMAINS) 7 8
        ⟨"n9v1", "10.0.0.9", []⟩).store.GetLocalNodeInfo "n9" = .error "node not found" ∧
    (NotifyLeaveDone ⟨sampleDecode, pingNobody, listOrder⟩
        (sampleDelegate .QUORUM_PROVIDER_FAILURE_DOMAINS) 7 8
        ⟨"n9v1", "10.0.0.9", []⟩).store.nodeMap = sampleMap ∧
    (NotifyLeaveDone ⟨sampleDecode, pingNobody, listOrder⟩
        (sampleDelegate .QUORUM_PROVIDER_FAILURE_DOMAINS) 7 8
        ⟨"n9v1", "10.0.0.9", []⟩).stateEvent = [] :=
  ⟨rfl, rfl, by decide, by decide⟩

/-- C14, amended: for a node id that is not in the node map,
`isClusterDomainSuspectDown` returns false and pings nobody, whatever the ping
function and the range order; so the node is not put in probation: the
goroutine of `NotifyLeave` takes the `setNodeOffline` path and makes no call on
the probation manager, and, the node being absent, the status update of that
path fails, so the delegate is left as it was: no node is marked, the node map
is unchanged and no `NODE_LEAVE` is sent. -/
theorem isClusterDomainSuspectDown_unknown_node (env : Env) (gd : GossipDelegate σ)
    (later : Nat) (nodeId err : String)
    (habsent : gd.store.GetLocalNodeInfo nodeId = .error err) :
    (∀ (ping : String → String → Except String Nat) (rangeOrder : NodeInfoMap → List String),
      isClusterDomainSuspectDown ping rangeOrder gd.store nodeId = (false, [])) ∧
    leaveSuspicionTask env gd later nodeId = setNodeOffline gd nodeId ∧
    (leaveSuspicionTask env gd later nodeId).nodeDownProbationManager =
      gd.nodeDownProbationManager ∧
    leaveSuspicionTask env gd later nodeId = gd ∧
    (leaveSuspicionTask env gd later nodeId).store.nodeMap = gd.store.nodeMap ∧
    (leaveSuspicionTask env gd later nodeId).stateEvent = gd.stateEvent ∧
    (∀ (now : Nat) (node : Node), parseMemberlistNodeName gd node.Name = nodeId →
      nodeId ≠ gd.nodeId →
      gd.quorumProvider = QuorumProviderType.QUORUM_PROVIDER_FAILURE_DOMAINS →
      NotifyLeaveDone env gd now later node = updateGossipTs gd now) := by
  have hl : gd.store.nodeMap.lookup nodeId = none := by
    rcases GetLocalNodeInfo_cases gd.store nodeId with ⟨v, hv, _⟩ | ⟨e, _, hl⟩
    · rw [hv] at habsent
      cases habsent
    · exact hl
  have hverdict : ∀ (ping : String → String → Except String Nat)
      (rangeOrder : NodeInfoMap → List String),
      isClusterDomainSuspectDown ping rangeOrder gd.store nodeId = (false, []) :=
    fun ping rangeOrder => isClusterDomainSuspectDown_absent ping rangeOrder gd.store nodeId hl
  have htask : leaveSuspicionTask env gd later nodeId = setNodeOffline gd nodeId :=
    leaveSuspicionTask_not_suspect env gd later nodeId
      (by rw [hverdict env.ping env.rangeOrder])
  have hsame : leaveSuspicionTask env gd later nodeId = gd := by
    rw [htask, setNodeOffline_absent gd nodeId hl]
  refine ⟨hverdict, htask, by rw [hsame], hsame, by rw [hsame], by rw [hsame], ?_⟩
  intro now node hname hpeer hprov
  subst hname
  rw [NotifyLeaveDone_failure_domains env gd now later node hpeer hprov,
    leaveSuspicionTask_not_suspect env (updateGossipTs gd now) later _
      (by
        show (isClusterDomainSuspectDown env.ping env.rangeOrder gd.store
          (parseMemberlistNodeName gd node.Name)).1 = false
        rw [hverdict env.ping env.rangeOrder]),
    setNodeOffline_absent (updateGossipTs gd now) _ hl]

/-- C14 amended, at a concrete input: `n9` is not in the sample map. -/
theorem isClusterDomainSuspectDown_unknown_node_witness :
    isClusterDomainSuspectDown pingOnlyN2 listOrder
        (sampleDelegate .QUORUM_PROVIDER_FAILURE_DOMAINS).store "n9" = (false, []) ∧
    leaveSuspicionTask ⟨sampleDecode, pingOnlyN2, listOrder⟩
        (sampleDelegate .QUORUM_PROVIDER_FAILURE_DOMAINS) 8 "n9" =
      sampleDelegate .QUORUM_PROVIDER_FAILURE_DOMAINS :=
  have h := isClusterDomainSuspectDown_unknown_node ⟨sampleDecode, pingOnlyN2, listOrder⟩
    (sampleDelegate .QUORUM_PROVIDER_FAILURE_DOMAINS) 8 "n9" "node not found" rfl
  ⟨h.1 pingOnlyN2 listOrder, h.2.2.2.1⟩

/-- C19: when the status update of the leaving peer fails, as it does for a
peer that is not in the node map, `setNodeOffline` and
`setNodeAsSuspectOffline` return the delegate as it was: no state event is
sent, no call is made on the probation manager and the node map is
unchanged. -/
theorem leave_of_unknown_node_not_escalated (gd : GossipDelegate σ) (now : Nat)
    (nodeName : String) :
    ((gd.store.UpdateNodeStatus nodeName NodeStatus.NODE_STATUS_DOWN).2 ≠ none →
      setNodeOffline gd nodeName = gd ∧
      (setNodeOffline gd nodeName).stateEvent = gd.stateEvent ∧
      (setNodeOffline gd nodeName).nodeDownProbationManager = gd.nodeDownProbationManager ∧
      (setNodeOffline gd nodeName).store.nodeMap = gd.store.nodeMap) ∧
    ((gd.store.UpdateNodeStatus nodeName NodeStatus.NODE_STATUS_SUSPECT_DOWN).2 ≠ none →
      setNodeAsSuspectOffline gd now nodeName = gd ∧
      (setNodeAsSuspectOffline gd now nodeName).stateEvent = gd.stateEvent ∧
      (setNodeAsSuspectOffline gd now nodeName).nodeDownProbationManager =
        gd.nodeDownProbationManager ∧
      (setNodeAsSuspectOffline gd now nodeName).store.nodeMap = gd.store.nodeMap) ∧
    (gd.store.nodeMap.lookup nodeName = none →
      (gd.store.UpdateNodeStatus nodeName NodeStatus.NODE_STATUS_DOWN).2 ≠ none ∧
      (gd.store.UpdateNodeStatus nodeName NodeStatus.NODE_STATUS_SUSPECT_DOWN).2 ≠ none) := by
  refine ⟨?_, ?_, ?_⟩
  · intro hfail
    have hrun : setNodeOffline gd nodeName = gd := by
      unfold setNodeOffline
      cases hup : gd.store.UpdateNodeStatus nodeName NodeStatus.NODE_STATUS_DOWN with
      | mk store err =>
        cases err with
        | none => rw [hup] at hfail; exact absurd rfl hfail
        | some e => rfl
    rw [hrun]
    exact ⟨rfl, rfl, rfl, rfl⟩
  · intro hfail
    have hrun : setNodeAsSuspectOffline gd now nodeName = gd := by
      unfold setNodeAsSuspectOffline
      cases hup : gd.store.UpdateNodeStatus nodeName NodeStatus.NODE_STATUS_SUSPECT_DOWN with
      | mk store err =>
        cases err with
        | none => rw [hup] at hfail; exact absurd rfl hfail
        | some e => rfl
    rw [hrun]
    exact ⟨rfl, rfl, rfl, rfl⟩
  · intro hl
    rw [UpdateNodeStatus_of_absent gd.store _ _ hl, UpdateNodeStatus_of_absent gd.store _ _ hl]
    exact ⟨by simp, by simp⟩

/-- C19 at a concrete input: `n9` is not in the sample map. -/
theorem leave_of_unknown_node_not_escalated_witness :
    setNodeOffline (sampleDelegate .QUORUM_PROVIDER_DEFAULT) "n9" =
        sampleDelegate .QUORUM_PROVIDER_DEFAULT ∧
    setNodeAsSuspectOffline (sampleDelegate .QUORUM_PROVIDER_DEFAULT) 8 "n9" =
        sampleDelegate .QUORUM_PROVIDER_DEFAULT :=
  have h := leave_of_unknown_node_not_escalated (sampleDelegate .QUORUM_PROVIDER_DEFAULT) 8 "n9"
  ⟨(h.1 (h.2.2 rfl).1).1, (h.2.1 (h.2.2 rfl).2).1⟩

/-! ## C20: the version and cluster-id check -/

/-- C20: `gossipChecks` returns nil exactly when the node's metadata decodes,
its gossip version equals the local gossip version and its cluster id equals
the local cluster id. The version is compared first: a node whose version
differs is rejected with the version-mismatch error whatever its cluster id,
and the cluster-id error is returned only when the versions agree. (The
embedded function returns the error and nothing else: it has no effect on the
delegate.) -/
theorem gossipChecks_nil_iff (env : Env) (gd : GossipDelegate σ) (node : Node) :
    (gossipChecks env gd node = none ↔
      ∃ nodeMeta, env.convertFromBytes node.Meta = .ok nodeMeta ∧
        nodeMeta.GossipVersion = gd.store.GetGossipVersion ∧
        nodeMeta.ClusterId = gd.store.GetClusterId) ∧
    (∀ nodeMeta, env.convertFromBytes node.Meta = .ok nodeMeta →
      nodeMeta.GossipVersion ≠ gd.store.GetGossipVersion →
      gossipChecks env gd node =
        some ("Version mismatch with Node (" ++ parseMemberlistNodeName gd node.Name ++ "):(" ++
          node.Addr ++ "). Our version: (" ++ gd.store.GetGossipVersion ++
          "). Their version: (" ++ nodeMeta.GossipVersion ++ ")")) ∧
    (∀ nodeMeta, env.convertFromBytes node.Meta = .ok nodeMeta →
      nodeMeta.GossipVersion = gd.store.GetGossipVersion →
      nodeMeta.ClusterId ≠ gd.store.GetClusterId →
      gossipChecks env gd node =
        some ("(" ++ gd.nodeId ++ ") ClusterId mismatch with Node (" ++
          parseMemberlistNodeName gd node.Name ++ "):(" ++ node.Addr ++
          "). Our clusterId: (" ++ gd.store.GetClusterId ++ "). Their clusterId: (" ++
          nodeMeta.ClusterId ++ ")")) ∧
    (∀ err, env.convertFromBytes node.Meta = .error err →
      gossipChecks env gd node =
        some ("gossip: Error in unmarshalling peer's meta data. Error : " ++ err)) := by
  refine ⟨?_, ?_, ?_, ?_⟩
  · unfold gossipChecks
    cases hdec : env.convertFromBytes node.Meta with
    | error e => simp
    | ok nodeMeta =>
      by_cases hv : nodeMeta.GossipVersion = gd.store.GetGossipVersion
      · by_cases hc : nodeMeta.ClusterId = gd.store.GetClusterId
        · simp [hv, hc]
        · simp [hv, hc]
      · simp [hv]
  · intro nodeMeta hdec hv
    unfold gossipChecks
    simp only [hdec, ne_eq, hv, not_false_eq_true, if_true]
  · intro nodeMeta hdec hv hc
    unfold gossipChecks
    simp only [hdec, ne_eq, hv, not_true_eq_false, if_false, hc, not_false_eq_true, if_true]
  · intro err hdec
    unfold gossipChecks
    simp only [hdec]

/-- C20 at a concrete input: a node at version `v2` of cluster `c2` mismatches
on both and is rejected for its version. -/
theorem gossipChecks_nil_iff_witness :
    gossipChecks ⟨fun _ => .ok ⟨"c2", "v2", "zone1"⟩, pingNobody, listOrder⟩
        (sampleDelegate .QUORUM_PROVIDER_DEFAULT) ⟨"n2v1", "10.0.0.2", []⟩ =
      some "Version mismatch with Node (n2):(10.0.0.2). Our version: (v1). Their version: (v2)" :=
  ((gossipChecks_nil_iff ⟨fun _ => .ok ⟨"c2", "v2", "zone1"⟩, pingNobody, listOrder⟩
    (sampleDelegate .QUORUM_PROVIDER_DEFAULT) ⟨"n2v1", "10.0.0.2", []⟩).2.1
    ⟨"c2", "v2", "zone1"⟩ rfl (by decide)).trans (by decide)


/-! ## C15, C16: the cluster-domains service -/

theorem find_after_update (l : List ClusterDomainInfo) (name : String)
    (state : ClusterDomainState) :
    (l.map (fun d => if d.Name = name then { d with State := state } else d)).find?
        (fun d => d.Name = name) =
      (l.find? (fun d => d.Name = name)).map (fun d => { d with State := state }) := by
  induction l with
  | nil => rfl
  | cons d rest ih =>
    by_cases h : d.Name = name
    · simp [List.find?, h]
    · simp only [List.map_cons, h, if_false, List.find?, decide_False]
      exact ih

theorem any_of_find (l : List ClusterDomainInfo) (name : String) (info : ClusterDomainInfo)
    (h : l.find? (fun d => d.Name = name) = some info) :
    l.any (fun d => d.Name = name) = true := by
  rw [List.any_eq_true]
  have hp : decide (info.Name = name) = true :=
    List.find?_some (p := fun d : ClusterDomainInfo => decide (d.Name = name)) h
  exact ⟨info, List.mem_of_find?_eq_some h, hp⟩

theorem InspectDomain_eq_ok (c : Cluster) (name : String) (info : ClusterDomainInfo) :
    c.InspectDomain name = .ok info ↔ c.domains.find? (fun d => d.Name = name) = some info := by
  unfold Cluster.InspectDomain
  cases h : c.domains.find? (fun d => d.Name = name) <;> simp

theorem UpdateDomainState_known (c : Cluster) (name : String) (state : ClusterDomainState)
    (info : ClusterDomainInfo) (hknown : c.InspectDomain name = .ok info) :
    c.UpdateDomainState name state =
        ({ domains := c.domains.map
              (fun d => if d.Name = name then { d with State := state } else d),
           updateRequests := c.updateRequests ++ [(name, state)] }, none) ∧
    (c.UpdateDomainState name state).1.InspectDomain name = .ok { info with State := state } := by
  have hfind := (InspectDomain_eq_ok c name info).mp hknown
  have hany := any_of_find c.domains name info hfind
  have hrun : c.UpdateDomainState name state =
      ({ domains := c.domains.map
            (fun d => if d.Name = name then { d with State := state } else d),
         updateRequests := c.updateRequests ++ [(name, state)] }, none) := by
    unfold Cluster.UpdateDomainState
    simp only [hany, if_true]
  refine ⟨hrun, ?_⟩
  rw [hrun, InspectDomain_eq_ok]
  show (c.domains.map (fun d => if d.Name = name then { d with State := state } else d)).find?
      (fun d => d.Name = name) = _
  rw [find_after_update, hfind]
  rfl

theorem UpdateDomainState_requests (c : Cluster) (name : String) (state : ClusterDomainState) :
    (c.UpdateDomainState name state).1.updateRequests = c.updateRequests ++ [(name, state)] := by
  unfold Cluster.UpdateDomainState
  cases h : c.domains.any (fun d => d.Name = name) with
  | true => rfl
  | false => rfl

/-- C15: `Activate` and `Deactivate` with an empty domain name return an error
and leave the cluster as it was, so no state update is requested; with a
non-empty name they request exactly one state update, of that domain, to
`ACTIVE` for `Activate` and to `INACTIVE` for `Deactivate`, and they return
the result of that update, so they succeed when it succeeds. -/
theorem Activate_Deactivate_contract (c : Cluster) (name : String) :
    ((Activate c "").2 ≠ none ∧ (Activate c "").1 = c) ∧
    ((Deactivate c "").2 ≠ none ∧ (Deactivate c "").1 = c) ∧
    (name ≠ "" →
      (Activate c name).1.updateRequests =
        c.updateRequests ++ [(name, ClusterDomainState.CLUSTER_DOMAIN_STATE_ACTIVE)] ∧
      Activate c name = c.UpdateDomainState name .CLUSTER_DOMAIN_STATE_ACTIVE ∧
      ((c.UpdateDomainState name .CLUSTER_DOMAIN_STATE_ACTIVE).2 = none →
        (Activate c name).2 = none)) ∧
    (name ≠ "" →
      (Deactivate c name).1.updateRequests =
        c.updateRequests ++ [(name, ClusterDomainState.CLUSTER_DOMAIN_STATE_INACTIVE)] ∧
      Deactivate c name = c.UpdateDomainState name .CLUSTER_DOMAIN_STATE_INACTIVE ∧
      ((c.UpdateDomainState name .CLUSTER_DOMAIN_STATE_INACTIVE).2 = none →
        (Deactivate c name).2 = none)) := by
  refine ⟨⟨by simp [Activate], by simp [Activate]⟩,
    ⟨by simp [Deactivate], by simp [Deactivate]⟩, ?_, ?_⟩
  · intro hname
    have hrun : Activate c name = c.UpdateDomainState name .CLUSTER_DOMAIN_STATE_ACTIVE := by
      unfold Activate
      rw [if_neg hname]
    rw [hrun]
    exact ⟨UpdateDomainState_requests c name _, rfl, fun h => h⟩
  · intro hname
    have hrun : Deactivate c name = c.UpdateDomainState name .CLUSTER_DOMAIN_STATE_INACTIVE := by
      unfold Deactivate
      rw [if_neg hname]
    rw [hrun]
    exact ⟨UpdateDomainState_requests c name _, rfl, fun h => h⟩

/-- C15 at a concrete input: the calls of the tests, `Activate` of the empty
name and of `zone2`. -/
theorem Activate_Deactivate_contract_witness :
    (Activate sampleCluster "").2 ≠ none ∧
    (Activate sampleCluster "zone2").1.updateRequests =
      [("zone2", ClusterDomainState.CLUSTER_DOMAIN_STATE_ACTIVE)] ∧
    (Activate sampleCluster "zone2").2 = none :=
  have h := Activate_Deactivate_contract sampleCluster "zone2"
  ⟨h.1.1, (h.2.2.1 (by decide)).1, (h.2.2.1 (by decide)).2.2 (by decide)⟩

/-- C16: for a known cluster-domain name, `Inspect` succeeds and reports
`isActive = true` exactly when the activation state of the domain is `ACTIVE`;
so, the name being non-empty, it reports true after the domain was activated
and false after it was deactivated. -/
theorem Inspect_reports_active_iff (c : Cluster) (name : String) (info : ClusterDomainInfo)
    (hknown : c.InspectDomain name = .ok info) :
    (∃ r, Inspect c name = .ok r ∧ r.ClusterDomainName = name ∧
      (r.IsActive = true ↔ info.State = ClusterDomainState.CLUSTER_DOMAIN_STATE_ACTIVE)) ∧
    (name ≠ "" → Inspect (Activate c name).1 name = .ok ⟨name, true⟩) ∧
    (name ≠ "" → Inspect (Deactivate c name).1 name = .ok ⟨name, false⟩) := by
  refine ⟨?_, ?_, ?_⟩
  · refine ⟨⟨name, decide (info.State = ClusterDomainState.CLUSTER_DOMAIN_STATE_ACTIVE)⟩,
      ?_, rfl, by simp⟩
    unfold Inspect
    rw [hknown]
  · intro hname
    have hrun : Activate c name = c.UpdateDomainState name .CLUSTER_DOMAIN_STATE_ACTIVE := by
      unfold Activate
      rw [if_neg hname]
    unfold Inspect
    rw [hrun, (UpdateDomainState_known c name _ info hknown).2]
    rfl
  · intro hname
    have hrun : Deactivate c name = c.UpdateDomainState name .CLUSTER_DOMAIN_STATE_INACTIVE := by
      unfold Deactivate
      rw [if_neg hname]
    unfold Inspect
    rw [hrun, (UpdateDomainState_known c name _ info hknown).2]
    rfl

/-- C16 at a concrete input: `zone1` of the tests is active, and inactive after
it is deactivated. -/
theorem Inspect_reports_active_iff_witness :
    Inspect sampleCluster "zone1" = .ok ⟨"zone1", true⟩ ∧
    Inspect (Deactivate sampleCluster "zone1").1 "zone1" = .ok ⟨"zone1", false⟩ :=
  have h := Inspect_reports_active_iff sampleCluster "zone1"
    ⟨"zone1", .CLUSTER_DOMAIN_STATE_ACTIVE⟩ rfl
  ⟨rfl, h.2.2 (by decide)⟩

/-! ## C17, C18: the push-pull exchange -/

/-- C17: `MergeRemoteState` with `join = true` returns the delegate as it was,
whatever the buffer and the store methods (nothing is decoded, `Update` is not
applied); with `join = false` and a buffer that decodes to a node map `m`, the
store afterwards is the result of `Update` applied to `m` (on the store whose
own timestamp was refreshed); and `MergeRemoteState` never sends a state
event. -/
theorem MergeRemoteState_frame (ops : StoreOps) (gd : GossipDelegate σ) (now : Nat)
    (buf : List Nat) :
    (∀ (ops2 : StoreOps) (buf2 : List Nat), MergeRemoteState ops2 gd now buf2 true = gd) ∧
    (∀ m, ops.convertFromBytes buf = (m, none) →
      (MergeRemoteState ops gd now buf false).store =
        ops.Update (ops.updateSelfTs gd.store now) m ∧
      (MergeRemoteState ops gd now buf false).store.nodeMap =
        (ops.Update (ops.updateSelfTs gd.store now) m).nodeMap) ∧
    (∀ join, (MergeRemoteState ops gd now buf join).stateEvent = gd.stateEvent) := by
  refine ⟨fun _ _ => rfl, ?_, ?_⟩
  · intro m hm
    have hrun : (MergeRemoteState ops gd now buf false).store =
        ops.Update (ops.updateSelfTs gd.store now) (ops.convertFromBytes buf).1 := rfl
    rw [hrun, hm]
    exact ⟨rfl, rfl⟩
  · intro join
    cases join <;> rfl

/-- C17 at a concrete input: the buffer `[4]` decodes to the one-node map of
`n4`; with `join = false` the node `n4` is merged into the node map, with
`join = true` the node map is the one before. -/
theorem MergeRemoteState_frame_witness :
    (MergeRemoteState sampleStoreOps (sampleDelegate .QUORUM_PROVIDER_DEFAULT) 7 [4]
        false).store.nodeMap =
      sampleMap ++ [("n4", ⟨"n4", "10.0.0.4", "zone2", .NODE_STATUS_UP⟩)] ∧
    (MergeRemoteState sampleStoreOps (sampleDelegate .QUORUM_PROVIDER_DEFAULT) 7 [4]
        true).store.nodeMap = sampleMap :=
  have h := MergeRemoteState_frame sampleStoreOps (sampleDelegate .QUORUM_PROVIDER_DEFAULT) 7 [4]
  ⟨((h.2.1 [("n4", ⟨"n4", "10.0.0.4", "zone2", .NODE_STATUS_UP⟩)] rfl).2).trans rfl,
   (congrArg (fun g : GossipDelegate QuorumState => g.store.nodeMap)
      (h.1 sampleStoreOps [4])).trans rfl⟩

/-- C18: `LocalState` returns the serialized snapshot of the node map when
serialization succeeds and the empty payload when it fails; it returns a
payload in every case, and neither the payload nor the delegate afterwards
depends on the join flag. -/
theorem LocalState_payload (ops : StoreOps) (gd : GossipDelegate σ) (now : Nat)
    (join : Bool) :
    (∀ bytes, ops.GetLocalStateInBytes (ops.updateSelfTs gd.store now) = .ok bytes →
      (LocalState ops gd now join).2 = bytes) ∧
    (∀ err, ops.GetLocalStateInBytes (ops.updateSelfTs gd.store now) = .error err →
      (LocalState ops gd now join).2 = []) ∧
    (∀ join2, LocalState ops gd now join2 = LocalState ops gd now join) ∧
    (LocalState ops gd now join).1.stateEvent = gd.stateEvent := by
  refine ⟨?_, ?_, fun _ => rfl, rfl⟩
  · intro bytes h
    show (match ops.GetLocalStateInBytes (ops.updateSelfTs gd.store now) with
      | .ok bytes => bytes
      | .error _ => []) = bytes
    rw [h]
  · intro err h
    show (match ops.GetLocalStateInBytes (ops.updateSelfTs gd.store now) with
      | .ok bytes => bytes
      | .error _ => []) = []
    rw [h]

/-- C18 at a concrete input: the sample serializer succeeds on the sample
map. -/
theorem LocalState_payload_witness :
    (LocalState sampleStoreOps (sampleDelegate .QUORUM_PROVIDER_DEFAULT) 7 true).2 = [2, 2, 2] :=
  (LocalState_payload sampleStoreOps (sampleDelegate .QUORUM_PROVIDER_DEFAULT) 7 true).1
    [2, 2, 2] rfl


/-! ## C21, C22: node names and probation ids -/

theorem TrimSuffix_append (s suffix : String) : TrimSuffix (s ++ suffix) suffix = s := by
  have hsuf : suffix.data.isSuffixOf (s ++ suffix).data = true := by
    rw [String.data_append, List.isSuffixOf_iff_suffix]
    exact List.suffix_append _ _
  unfold TrimSuffix
  rw [if_pos hsuf]
  apply String.ext
  show List.take ((s ++ suffix).data.length - suffix.data.length) (s ++ suffix).data = s.data
  rw [String.data_append, List.length_append, Nat.add_sub_cancel, List.take_left]

theorem TrimSuffix_of_no_stem (name suffix : String)
    (h : ∀ stem : String, name ≠ stem ++ suffix) : TrimSuffix name suffix = name := by
  have hsuf : ¬ suffix.data.isSuffixOf name.data = true := by
    rw [List.isSuffixOf_iff_suffix]
    rintro ⟨t, ht⟩
    apply h (String.mk t)
    apply String.ext
    rw [String.data_append]
    exact ht.symm
  unfold TrimSuffix
  rw [if_neg hsuf]

theorem TrimPrefix_append (pre s : String) : TrimPrefix (pre ++ s) pre = s := by
  have hpre : pre.data.isPrefixOf (pre ++ s).data = true := by
    rw [String.data_append, List.isPrefixOf_iff_prefix]
    exact List.prefix_append _ _
  unfold TrimPrefix
  rw [if_pos hpre]
  apply String.ext
  show List.drop pre.data.length (pre ++ s).data = s.data
  rw [String.data_append, List.drop_left]

/-- C21: for every node id and every local gossip version,
`parseMemberlistNodeName` applied to the id followed by the version returns
exactly the id; only one trailing occurrence of the version is stripped, so
an id that itself ends with the version is returned whole; and a name that
does not end with the local gossip version is returned unchanged. -/
theorem parseMemberlistNodeName_strips_one_version (gd : GossipDelegate σ)
    (nodeId name : String) :
    parseMemberlistNodeName gd (nodeId ++ gd.store.GetGossipVersion) = nodeId ∧
    parseMemberlistNodeName gd
        ((nodeId ++ gd.store.GetGossipVersion) ++ gd.store.GetGossipVersion) =
      nodeId ++ gd.store.GetGossipVersion ∧
    ((∀ stem : String, name ≠ stem ++ gd.store.GetGossipVersion) →
      parseMemberlistNodeName gd name = name) :=
  ⟨TrimSuffix_append _ _, TrimSuffix_append _ _, TrimSuffix_of_no_stem _ _⟩

/-- C21 at concrete inputs: with gossip version `v1`, the name `nv1v1` of the
node `nv1` loses one occurrence of the version, and the name `n2v2` is
returned unchanged. -/
theorem parseMemberlistNodeName_strips_one_version_witness :
    parseMemberlistNodeName (sampleDelegate .QUORUM_PROVIDER_DEFAULT) "nv1v1" = "nv1" ∧
    parseMemberlistNodeName (sampleDelegate .QUORUM_PROVIDER_DEFAULT) "n2v2" = "n2v2" :=
  have h := parseMemberlistNodeName_strips_one_version
    (sampleDelegate .QUORUM_PROVIDER_DEFAULT) "n" "n2v2"
  ⟨h.2.1, (by decide : TrimSuffix "n2v2" "v1" = "n2v2")⟩

/-- C22: for every node name `n`, `probationIDToNodeName (nodeNameToProbationID
n) = n`, also when `n` itself starts with `gossip-`, and
`nodeNameToProbationID` is injective, so distinct peers have distinct
probation ids; hence, when the entry registered for the peer `n` expires while
the local node is `UP`, the peer marked `DOWN` is `n`. -/
theorem probationID_round_trip (n m : String) :
    probationIDToNodeName (nodeNameToProbationID n) = n ∧
    probationIDToNodeName (nodeNameToProbationID ("gossip-" ++ n)) = "gossip-" ++ n ∧
    (nodeNameToProbationID n = nodeNameToProbationID m → n = m) ∧
    (n ≠ m → nodeNameToProbationID n ≠ nodeNameToProbationID m) ∧
    (∀ (gd : GossipDelegate σ) (now : Nat) (nodeData : Option String) (info : NodeInfo),
      gd.store.GetSelfStatus = some NodeStatus.NODE_STATUS_UP →
      gd.store.GetLocalNodeInfo n = .ok info →
      (probationExpiredOnSuspectedDownNode gd now (nodeNameToProbationID n)
          nodeData).1.store.GetLocalNodeInfo n =
        .ok { info with Status := NodeStatus.NODE_STATUS_DOWN }) := by
  have hround : ∀ x : String, probationIDToNodeName (nodeNameToProbationID x) = x :=
    fun x => TrimPrefix_append "gossip-" x
  have hinj : ∀ x y : String, nodeNameToProbationID x = nodeNameToProbationID y → x = y := by
    intro x y h
    rw [← hround x, h, hround y]
  refine ⟨hround n, hround _, hinj n m, fun hne h => hne (hinj n m h), ?_⟩
  intro gd now nodeData info hup hinfo
  have hrun : (probationExpiredOnSuspectedDownNode gd now (nodeNameToProbationID n)
      nodeData).1.store =
      (gd.store.UpdateNodeStatus (probationIDToNodeName (nodeNameToProbationID n))
        NodeStatus.NODE_STATUS_DOWN).1 := by
    unfold probationExpiredOnSuspectedDownNode
    simp only [hup, ne_eq, not_true_eq_false, if_false]
  rw [hrun, hround n, UpdateNodeStatus_of_present gd.store n _ info hinfo]
  exact GetLocalNodeInfo_setStatus_self gd.store n _ info hinfo

/-- C22 at a concrete input: the node name `gossip-n3` itself starts with the
prefix of the probation ids. -/
theorem probationID_round_trip_witness :
    nodeNameToProbationID "gossip-n3" = "gossip-gossip-n3" ∧
    probationIDToNodeName "gossip-gossip-n3" = "gossip-n3" :=
  ⟨rfl, (probationID_round_trip (σ := QuorumState) "n3" "n2").2.1⟩

end Gossip
